import Mathlib

/-!
Verification of the section-analyzer framework of the `ai-system-monitor`
repository (python sources under `src/analyzer`).

The python code is shallowly embedded: JSON-shaped python values become the
inductive type `JVal`, python dictionaries become association lists in
insertion order, functions that can raise return `Except PyErr`, and the
LM-Studio client is a parameter `gen : String → Except PyErr String`
(one call = one application).  File/logging side effects (`llm_log_dir`,
`output_dir`) are modelled in the configuration where they are disabled
(`None` in the source), which does not change any returned value.
-/

namespace SysMon

/-- A JSON-shaped python value (the values flowing through the analyzer:
results of `json.loads`, snapshot sections, analysis results).
Python floats are modelled as exact decimals `jfloat m s` denoting
`m / 10^s`; the claims under verification never depend on binary
floating-point rounding. -/
inductive JVal where
  | null : JVal
  | jbool : Bool → JVal
  | jint : Int → JVal
  | jfloat : Int → Nat → JVal
  | jstr : String → JVal
  | jarr : List JVal → JVal
  | jobj : List (String × JVal) → JVal
deriving Repr, Inhabited

/-- A python dictionary with string keys, in insertion order. -/
abbrev Dict := List (String × JVal)

/-- Lookup in an insertion-ordered association list (python dict read). -/
def assocFind? {α : Type} (d : List (String × α)) (k : String) : Option α :=
  match d with
  | [] => none
  | p :: t => if p.1 = k then some p.2 else assocFind? t k

/-- Key membership in an association list (python `k in d`). -/
def assocHas {α : Type} (d : List (String × α)) (k : String) : Bool :=
  d.any (fun p => p.1 = k)

/-- `d[k] = v`: updates in place if the key exists (python keys are unique,
so replacing the first occurrence is the update), otherwise appends —
insertion order is preserved. -/
def assocSet {α : Type} (d : List (String × α)) (k : String) (v : α) :
    List (String × α) :=
  match d with
  | [] => [(k, v)]
  | p :: t => if p.1 = k then (k, v) :: t else p :: assocSet t k v

/-- Lookup in a python dict (`d[k]` / `d.get(k)` when the key is present). -/
def dictFind? (d : Dict) (k : String) : Option JVal := assocFind? d k

/-- `k in d` for a python dict. -/
def dictHas (d : Dict) (k : String) : Bool := assocHas d k

/-- `d[k] = v` for a python dict. -/
def dictSet (d : Dict) (k : String) (v : JVal) : Dict := assocSet d k v

deriving instance DecidableEq for Except

/-- A raised python exception: its class name and its `str(e)` message. -/
structure PyErr where
  kind : String
  msg : String
deriving Repr, DecidableEq

/-- `AttributeError` raised when calling a method on a value that lacks it. -/
def attrErr (tyName attr : String) : PyErr :=
  ⟨"AttributeError", "\x27" ++ tyName ++ "\x27 object has no attribute \x27" ++ attr ++ "\x27"⟩

def typeErr (m : String) : PyErr := ⟨"TypeError", m⟩

def valueErr (m : String) : PyErr := ⟨"ValueError", m⟩

/-- Model of `traceback.format_exc()` for the exception being handled. -/
def pyTraceback (e : PyErr) : String :=
  "Traceback (most recent call last): " ++ e.kind ++ ": " ++ e.msg

/-- The python type name of a value (used in error messages). -/
def JVal.pyTypeName : JVal → String
  | .null => "NoneType"
  | .jbool _ => "bool"
  | .jint _ => "int"
  | .jfloat _ _ => "float"
  | .jstr _ => "str"
  | .jarr _ => "list"
  | .jobj _ => "dict"

/-- Python truthiness of a JSON-shaped value. -/
def pyTruthy : JVal → Bool
  | .null => false
  | .jbool b => b
  | .jint n => n ≠ 0
  | .jfloat m _ => m ≠ 0
  | .jstr s => s ≠ ""
  | .jarr xs => ¬ xs.isEmpty
  | .jobj kvs => ¬ kvs.isEmpty

/-- `v.get(k)` — `AttributeError` unless `v` is a dict; `None` when absent. -/
def pyGet (v : JVal) (k : String) : Except PyErr JVal :=
  match v with
  | .jobj kvs => .ok ((dictFind? kvs k).getD .null)
  | _ => .error (attrErr v.pyTypeName "get")

/-- `v.get(k, default)` — `AttributeError` unless `v` is a dict. -/
def pyGetD (v : JVal) (k : String) (d : JVal) : Except PyErr JVal :=
  match v with
  | .jobj kvs => .ok ((dictFind? kvs k).getD d)
  | _ => .error (attrErr v.pyTypeName "get")

/-- ASCII-faithful `str.lower` (core `String.map` is not definitionally
reducible, so the character list is mapped directly). -/
def strLower (s : String) : String := String.mk (s.data.map Char.toLower)

/-- ASCII-faithful `str.upper`. -/
def strUpper (s : String) : String := String.mk (s.data.map Char.toUpper)

/-- `v.lower()` — `AttributeError` unless `v` is a string. -/
def pyLower (v : JVal) : Except PyErr String :=
  match v with
  | .jstr s => .ok (strLower s)
  | _ => .error (attrErr v.pyTypeName "lower")

/-- Substring test on character lists (python `needle in haystack` for strings). -/
def infixB (needle : List Char) : List Char → Bool
  | [] => needle.isEmpty
  | c :: t => needle.isPrefixOf (c :: t) || infixB needle t

/-- Equality of a python value against a string literal (python `==`). -/
def eqStrKey (k : String) : JVal → Bool
  | .jstr s => s = k
  | _ => false

/-- Python `k in v` for a string `k`: key membership for dicts, element
membership for lists, substring test for strings, `TypeError` otherwise. -/
def pyIn (k : String) (v : JVal) : Except PyErr Bool :=
  match v with
  | .jobj kvs => .ok (dictHas kvs k)
  | .jarr xs => .ok (xs.any (eqStrKey k))
  | .jstr s => .ok (infixB k.data s.data)
  | _ => .error (typeErr ("argument of type \x27" ++ v.pyTypeName ++ "\x27 is not iterable"))

/-- Python `v[k]` for a string key `k`. -/
def pyIndex (v : JVal) (k : String) : Except PyErr JVal :=
  match v with
  | .jobj kvs =>
    match dictFind? kvs k with
    | some w => .ok w
    | none => .error ⟨"KeyError", k⟩
  | .jarr _ => .error (typeErr "list indices must be integers or slices, not str")
  | .jstr _ => .error (typeErr "string indices must be integers")
  | _ => .error (typeErr ("\x27" ++ v.pyTypeName ++ "\x27 object is not subscriptable"))

/-- Python `for x in v`: list elements, string characters, dict keys. -/
def pyIter (v : JVal) : Except PyErr (List JVal) :=
  match v with
  | .jarr xs => .ok xs
  | .jstr s => .ok (s.data.map (fun c => .jstr (String.mk [c])))
  | .jobj kvs => .ok (kvs.map (fun p => .jstr p.1))
  | _ => .error (typeErr ("\x27" ++ v.pyTypeName ++ "\x27 object is not iterable"))

def digitChar (d : Nat) : Char := Char.ofNat ('0'.toNat + d)

/-- Decimal digits of a natural number, most significant first. -/
def natToCharsAux : Nat → Nat → List Char
  | 0, _ => []
  | fuel + 1, n => if n < 10 then [digitChar n] else natToCharsAux fuel (n / 10) ++ [digitChar (n % 10)]

def natToChars (n : Nat) : List Char := natToCharsAux (n + 1) n

/-- Python decimal rendering of an integer. -/
def intToChars (i : Int) : List Char :=
  if i < 0 then '-' :: natToChars i.natAbs else natToChars i.natAbs

/-- Decimal rendering of the exact float `m / 10^s` (matches `repr` of a
python float whose value is this decimal), as a character list. -/
def renderFloatL (m : Int) (s : Nat) : List Char :=
  if s = 0 then intToChars m ++ ['.', '0']
  else
    (if m < 0 then ['-'] else [])
      ++ natToChars (m.natAbs / 10 ^ s) ++ '.'
      :: (List.replicate (s - (natToChars (m.natAbs % 10 ^ s)).length) '0'
          ++ natToChars (m.natAbs % 10 ^ s))

def renderFloat (m : Int) (s : Nat) : String := (renderFloatL m s).asString

/-- Escaping of one character inside a python single-quoted `repr`. -/
def reprEsc (c : Char) : List Char :=
  if c = '\\' then ['\\', '\\']
  else if c = '\x27' then ['\\', '\x27']
  else if c = '\n' then ['\\', 'n']
  else [c]

mutual

/-- Python `repr` of a JSON-shaped value (string escaping simplified to the
apostrophe and the backslash; the claims never inspect `repr` output). -/
def pyRepr : JVal → String
  | .null => "None"
  | .jbool b => if b then "True" else "False"
  | .jint n => toString n
  | .jfloat m s => renderFloat m s
  | .jstr s => "\x27" ++ ((s.data.map reprEsc).flatten).asString ++ "\x27"
  | .jarr xs => "[" ++ pyReprList xs ++ "]"
  | .jobj kvs => "\x7b" ++ pyReprObj kvs ++ "\x7d"

def pyReprList : List JVal → String
  | [] => ""
  | [x] => pyRepr x
  | x :: xs => pyRepr x ++ ", " ++ pyReprList xs

def pyReprObj : List (String × JVal) → String
  | [] => ""
  | [(k, v)] => pyRepr (.jstr k) ++ ": " ++ pyRepr v
  | (k, v) :: kvs => pyRepr (.jstr k) ++ ": " ++ pyRepr v ++ ", " ++ pyReprObj kvs

end

/-- Python `str()` of a value, as interpolated by f-strings. -/
def pyStr : JVal → String
  | .jstr s => s
  | v => pyRepr v

/-- Gregorian leap year. -/
def isLeap (y : Nat) : Bool :=
  (y % 4 = 0 && y % 100 ≠ 0) || y % 400 = 0

def daysInMonth (y m : Nat) : Nat :=
  if m = 2 then (if isLeap y then 29 else 28)
  else if m = 4 ∨ m = 6 ∨ m = 9 ∨ m = 11 then 30
  else 31

/-- Days since 1970-01-01 of a (valid, year ≥ 1) Gregorian date; the standard
days-from-civil computation.  Only differences of values matter here. -/
def daysFromCivil (y m d : Nat) : Int :=
  let y' := if m ≤ 2 then y - 1 else y
  let era := y' / 400
  let yoe := y' % 400
  let mp := if m > 2 then m - 3 else m + 9
  let doy := (153 * mp + 2) / 5 + d - 1
  let doe := yoe * 365 + yoe / 4 - yoe / 100 + doy
  (era * 146097 + doe : Int) - 719468

def isDigitCh (c : Char) : Bool := '0' ≤ c ∧ c ≤ '9'

def digitsToNat (cs : List Char) : Nat :=
  cs.foldl (fun a c => a * 10 + (c.toNat - '0'.toNat)) 0

/-- Parse of a decimal-number string by python `float()` (whitespace-stripped
input; `inf`/`nan` and underscore separators are out of scope — no analyzer
input under the claims uses them).  Returns the exact rational value. -/
def parseFloatCore (cs : List Char) : Option Rat :=
  let (sign, cs) :=
    match cs with
    | '-' :: t => ((-1 : Int), t)
    | '+' :: t => ((1 : Int), t)
    | _ => ((1 : Int), cs)
  let intPart := cs.takeWhile isDigitCh
  let rest := cs.dropWhile isDigitCh
  let (fracPart, rest) :=
    match rest with
    | '.' :: t => (t.takeWhile isDigitCh, t.dropWhile isDigitCh)
    | _ => ([], rest)
  if intPart.isEmpty ∧ fracPart.isEmpty then none
  else
    let mant : Int := sign * (digitsToNat (intPart ++ fracPart) : Int)
    let baseVal : Rat := (mant : Rat) / ((10 : Rat) ^ fracPart.length)
    match rest with
    | [] => some baseVal
    | e :: t =>
      if e = 'e' ∨ e = 'E' then
        let (esign, t) :=
          match t with
          | '-' :: t' => ((-1 : Int), t')
          | '+' :: t' => ((1 : Int), t')
          | _ => ((1 : Int), t)
        let eDigits := t.takeWhile isDigitCh
        if eDigits.isEmpty ∨ ¬ (t.dropWhile isDigitCh).isEmpty then none
        else
          let ex := esign * (digitsToNat eDigits : Int)
          some (baseVal * (10 : Rat) ^ ex)
      else none

def isPySpace (c : Char) : Bool := c = ' ' ∨ c = '\t' ∨ c = '\n' ∨ c = '\r'

/-- Python `float(v)`. -/
def pyFloat (v : JVal) : Except PyErr Rat :=
  match v with
  | .jint n => .ok (n : Rat)
  | .jfloat m s => .ok ((m : Rat) / (10 : Rat) ^ s)
  | .jbool b => .ok (if b then 1 else 0)
  | .jstr s =>
    match parseFloatCore ((s.data.dropWhile isPySpace).reverse.dropWhile isPySpace |>.reverse) with
    | some q => .ok q
    | none => .error (valueErr ("could not convert string to float: " ++ s))
  | v => .error (typeErr ("float() argument must be a string or a real number, not \x27" ++ v.pyTypeName ++ "\x27"))

/-- Round half to even to an integer. -/
def roundHalfEven (q : Rat) : Int :=
  let f := q.floor
  let r := q - (f : Rat)
  if r < 1/2 then f
  else if r > 1/2 then f + 1
  else if f % 2 = 0 then f else f + 1

/-- Python `"{:.1f}".format(q)` on an exact decimal value. -/
def formatFixed1 (q : Rat) : String :=
  let n := roundHalfEven (q * 10)
  (if n < 0 then "-" else "") ++ toString (n.natAbs / 10) ++ "." ++ toString (n.natAbs % 10)

/-- The `\x7b` character (kept as a named constant). -/
def lbrace : Char := Char.ofNat 123

/-- The `\x7d` character. -/
def rbrace : Char := Char.ofNat 125

def skipWs (cs : List Char) : List Char :=
  cs.dropWhile (fun c => c = ' ' ∨ c = '\t' ∨ c = '\n' ∨ c = '\r')

def hexDigitVal (c : Char) : Option Nat :=
  if '0' ≤ c ∧ c ≤ '9' then some (c.toNat - '0'.toNat)
  else if 'a' ≤ c ∧ c ≤ 'f' then some (c.toNat - 'a'.toNat + 10)
  else if 'A' ≤ c ∧ c ≤ 'F' then some (c.toNat - 'A'.toNat + 10)
  else none

/-- Normalize an exact decimal `m / 10^s` by stripping trailing zeros,
mirroring the repr a python float gets from `json.loads`. -/
def normalizeDec (m : Int) : Nat → JVal
  | 0 => .jfloat m 0
  | s + 1 => if m % 10 = 0 then normalizeDec (m / 10) s else .jfloat m (s + 1)

/-- Build the parsed number from sign, integer digits, fraction digits and
exponent: an `int` when there is no fraction and no exponent, else a float. -/
def mkNumber (sign : Int) (intDigits fracDigits : List Char) (expVal : Option Int) : JVal :=
  match fracDigits, expVal with
  | [], none => .jint (sign * (digitsToNat intDigits : Int))
  | _, _ =>
    let m0 : Int := sign * (digitsToNat (intDigits ++ fracDigits) : Int)
    let net : Int := (expVal.getD 0) - (fracDigits.length : Int)
    if net ≥ 0 then .jfloat (m0 * (10 : Int) ^ net.natAbs) 0
    else normalizeDec m0 net.natAbs

/-- Parse the body of a JSON string literal (opening quote consumed),
returning the string and the remaining input.  Raw control characters are
rejected (python `json.loads` is strict); `\uXXXX` escapes are decoded,
surrogate pairs combined (a lone surrogate maps to the default char —
irrelevant to every claim). -/
def parseJStr : Nat → List Char → List Char → Option (String × List Char)
  | 0, _, _ => none
  | _ + 1, _, [] => none
  | fuel + 1, acc, c :: t =>
    if c = '"' then some ((acc.reverse).asString, t)
    else if c = '\\' then
      match t with
      | [] => none
      | e :: t' =>
        if e = '"' then parseJStr fuel ('"' :: acc) t'
        else if e = '\\' then parseJStr fuel ('\\' :: acc) t'
        else if e = '/' then parseJStr fuel ('/' :: acc) t'
        else if e = 'b' then parseJStr fuel ('\x08' :: acc) t'
        else if e = 'f' then parseJStr fuel ('\x0c' :: acc) t'
        else if e = 'n' then parseJStr fuel ('\n' :: acc) t'
        else if e = 'r' then parseJStr fuel ('\r' :: acc) t'
        else if e = 't' then parseJStr fuel ('\t' :: acc) t'
        else if e = 'u' then
          match t' with
          | h1 :: h2 :: h3 :: h4 :: t'' =>
            match hexDigitVal h1, hexDigitVal h2, hexDigitVal h3, hexDigitVal h4 with
            | some a, some b, some c', some d =>
              let n := ((a * 16 + b) * 16 + c') * 16 + d
              if 0xD800 ≤ n ∧ n ≤ 0xDBFF then
                match t'' with
                | '\\' :: 'u' :: g1 :: g2 :: g3 :: g4 :: t3 =>
                  match hexDigitVal g1, hexDigitVal g2, hexDigitVal g3, hexDigitVal g4 with
                  | some a', some b', some c2, some d' =>
                    let n2 := ((a' * 16 + b') * 16 + c2) * 16 + d'
                    if 0xDC00 ≤ n2 ∧ n2 ≤ 0xDFFF then
                      parseJStr fuel (Char.ofNat (0x10000 + (n - 0xD800) * 1024 + (n2 - 0xDC00)) :: acc) t3
                    else parseJStr fuel (Char.ofNat n :: acc) t''
                  | _, _, _, _ => parseJStr fuel (Char.ofNat n :: acc) t''
                | _ => parseJStr fuel (Char.ofNat n :: acc) t''
              else parseJStr fuel (Char.ofNat n :: acc) t''
            | _, _, _, _ => none
          | _ => none
        else none
    else if c.toNat < 0x20 then none
    else parseJStr fuel (c :: acc) t

/-- Parse the optional exponent of a JSON number and finish it. -/
def parseJNumExp (sign : Int) (intDigits fracDigits rest : List Char) :
    Option (JVal × List Char) :=
  match rest with
  | e :: t =>
    if e = 'e' ∨ e = 'E' then
      let (esign, t') :=
        match t with
        | '-' :: t2 => ((-1 : Int), t2)
        | '+' :: t2 => ((1 : Int), t2)
        | _ => ((1 : Int), t)
      let eDigits := t'.takeWhile isDigitCh
      if eDigits.isEmpty then none
      else some (mkNumber sign intDigits fracDigits (some (esign * (digitsToNat eDigits : Int))),
                 t'.dropWhile isDigitCh)
    else some (mkNumber sign intDigits fracDigits none, rest)
  | [] => some (mkNumber sign intDigits fracDigits none, [])

/-- Parse a JSON number (strict grammar: no leading zeros, a fraction or an
exponent needs at least one digit). -/
def parseJNum (cs : List Char) : Option (JVal × List Char) :=
  let (sign, cs) :=
    match cs with
    | '-' :: t => ((-1 : Int), t)
    | _ => ((1 : Int), cs)
  let intDigits := cs.takeWhile isDigitCh
  let rest := cs.dropWhile isDigitCh
  if intDigits.isEmpty then none
  else if intDigits.length > 1 ∧ intDigits.headD '0' = '0' then none
  else
    match rest with
    | '.' :: t =>
      let f := t.takeWhile isDigitCh
      if f.isEmpty then none
      else parseJNumExp sign intDigits f (t.dropWhile isDigitCh)
    | _ => parseJNumExp sign intDigits [] rest

mutual

/-- Recursive-descent JSON value parser (python `json.loads` grammar; the
`NaN`/`Infinity` extensions are outside the model). -/
def parseJVal : Nat → List Char → Option (JVal × List Char)
  | 0, _ => none
  | fuel + 1, cs =>
    match skipWs cs with
    | [] => none
    | c :: t =>
      if c = '"' then parseJStr (t.length + 1) [] t
        |>.map (fun (s, r) => (.jstr s, r))
      else if c = lbrace then parseJObj fuel true [] t
      else if c = '[' then parseJArr fuel true [] t
      else if c = 'n' then
        match t with
        | 'u' :: 'l' :: 'l' :: r => some (.null, r)
        | _ => none
      else if c = 't' then
        match t with
        | 'r' :: 'u' :: 'e' :: r => some (.jbool true, r)
        | _ => none
      else if c = 'f' then
        match t with
        | 'a' :: 'l' :: 's' :: 'e' :: r => some (.jbool false, r)
        | _ => none
      else parseJNum (c :: t)

/-- Parse array items; `first` is true before the first item. -/
def parseJArr : Nat → Bool → List JVal → List Char → Option (JVal × List Char)
  | 0, _, _, _ => none
  | fuel + 1, first, acc, cs =>
    match skipWs cs with
    | [] => none
    | c :: t =>
      if c = ']' ∧ first then some (.jarr [], t)
      else
        match parseJVal fuel (c :: t) with
        | none => none
        | some (v, rest) =>
          match skipWs rest with
          | ',' :: r2 => parseJArr fuel false (v :: acc) r2
          | ']' :: r2 => some (.jarr (v :: acc).reverse, r2)
          | _ => none

/-- Parse object items; duplicate keys follow python semantics (last wins). -/
def parseJObj : Nat → Bool → List (String × JVal) → List Char → Option (JVal × List Char)
  | 0, _, _, _ => none
  | fuel + 1, first, acc, cs =>
    match skipWs cs with
    | [] => none
    | c :: t =>
      if c = rbrace ∧ first then some (.jobj [], t)
      else if c = '"' then
        match parseJStr (t.length + 1) [] t with
        | none => none
        | some (k, rest) =>
          match skipWs rest with
          | ':' :: r2 =>
            match parseJVal fuel r2 with
            | none => none
            | some (v, r3) =>
              match skipWs r3 with
              | ',' :: r4 => parseJObj fuel false (dictSet acc k v) r4
              | d :: r4 =>
                if d = rbrace then some (.jobj (dictSet acc k v), r4) else none
              | [] => none
          | _ => none
      else none

end

/-- Python `json.loads` on a whole string: one value, optionally surrounded
by whitespace; raises (here: `none`) on anything else. -/
def jsonLoads (s : String) : Option JVal :=
  match parseJVal (s.data.length + 1) s.data with
  | some (v, rest) => if (skipWs rest).isEmpty then some v else none
  | none => none

/-- Escaping of one character by `json.dumps(..., ensure_ascii=False)`. -/
def jsonEsc (c : Char) : List Char :=
  if c = '"' then ['\\', '"']
  else if c = '\\' then ['\\', '\\']
  else if c = '\n' then ['\\', 'n']
  else if c = '\r' then ['\\', 'r']
  else if c = '\t' then ['\\', 't']
  else if c = '\x08' then ['\\', 'b']
  else if c = '\x0c' then ['\\', 'f']
  else if c.toNat < 0x20 then
    let lo := c.toNat % 16
    let hi := c.toNat / 16 % 16
    ['\\', 'u', '0', '0',
     (if hi < 10 then Char.ofNat ('0'.toNat + hi) else Char.ofNat ('a'.toNat + hi - 10)),
     (if lo < 10 then Char.ofNat ('0'.toNat + lo) else Char.ofNat ('a'.toNat + lo - 10))]
  else [c]

/-- A JSON string literal under `ensure_ascii=False`. -/
def dumpsStr (s : String) : List Char := '"' :: (s.data.map jsonEsc).flatten ++ ['"']

mutual

/-- `json.dumps(v, ensure_ascii=False)` with the default separators
`", "` and `": "`, as a character list. -/
def json_dumpsL : JVal → List Char
  | .null => ['n', 'u', 'l', 'l']
  | .jbool b => if b then ['t', 'r', 'u', 'e'] else ['f', 'a', 'l', 's', 'e']
  | .jint n => intToChars n
  | .jfloat m s => renderFloatL m s
  | .jstr s => dumpsStr s
  | .jarr xs => '[' :: json_dumpsArr xs ++ [']']
  | .jobj kvs => lbrace :: json_dumpsObj kvs ++ [rbrace]

def json_dumpsArr : List JVal → List Char
  | [] => []
  | [x] => json_dumpsL x
  | x :: y :: xs => json_dumpsL x ++ ',' :: ' ' :: json_dumpsArr (y :: xs)

def json_dumpsObj : List (String × JVal) → List Char
  | [] => []
  | [(k, v)] => dumpsStr k ++ ':' :: ' ' :: json_dumpsL v
  | (k, v) :: p :: kvs =>
    dumpsStr k ++ ':' :: ' ' :: json_dumpsL v ++ ',' :: ' ' :: json_dumpsObj (p :: kvs)

end

def json_dumps (v : JVal) : String := (json_dumpsL v).asString

/-- Four lowercase hex digits. -/
def hex4 (n : Nat) : List Char :=
  let d := fun k =>
    let v := n / 16 ^ k % 16
    if v < 10 then Char.ofNat ('0'.toNat + v) else Char.ofNat ('a'.toNat + v - 10)
  [d 3, d 2, d 1, d 0]

/-- Escaping of one character by `json.dumps` with the default
`ensure_ascii=True` (non-ASCII becomes `\uXXXX`, astral characters a
surrogate pair). -/
def jsonEscA (c : Char) : List Char :=
  if c.toNat ≥ 0x7f then
    if c.toNat ≤ 0xFFFF then '\\' :: 'u' :: hex4 c.toNat
    else
      let n := c.toNat - 0x10000
      ('\\' :: 'u' :: hex4 (0xD800 + n / 1024)) ++ ('\\' :: 'u' :: hex4 (0xDC00 + n % 1024))
  else jsonEsc c

def indentSp (n : Nat) : List Char := List.replicate n ' '

/-- A JSON string literal under `ensure_ascii=True`. -/
def dumpsStrA (s : String) : List Char := '"' :: (s.data.map jsonEscA).flatten ++ ['"']

mutual

/-- `json.dumps(v, indent=2)` (so `ensure_ascii=True`), at indentation
level `lvl`, as a character list. -/
def dumpsIndL : Nat → JVal → List Char
  | _, .null => ['n', 'u', 'l', 'l']
  | _, .jbool b => if b then ['t', 'r', 'u', 'e'] else ['f', 'a', 'l', 's', 'e']
  | _, .jint n => intToChars n
  | _, .jfloat m s => renderFloatL m s
  | _, .jstr s => dumpsStrA s
  | lvl, .jarr xs =>
    match xs with
    | [] => ['[', ']']
    | x :: t =>
      '[' :: '\n' :: indentSp (lvl + 2) ++ dumpsIndArr (lvl + 2) x t
        ++ '\n' :: indentSp lvl ++ [']']
  | lvl, .jobj kvs =>
    match kvs with
    | [] => [lbrace, rbrace]
    | p :: t =>
      lbrace :: '\n' :: indentSp (lvl + 2) ++ dumpsIndObj (lvl + 2) p t
        ++ '\n' :: indentSp lvl ++ [rbrace]
termination_by _ v => sizeOf v

def dumpsIndArr : Nat → JVal → List JVal → List Char
  | lvl, x, [] => dumpsIndL lvl x
  | lvl, x, y :: t => dumpsIndL lvl x ++ ',' :: '\n' :: indentSp lvl ++ dumpsIndArr lvl y t
termination_by _ x t => 1 + sizeOf x + sizeOf t

def dumpsIndObj : Nat → String × JVal → List (String × JVal) → List Char
  | lvl, (k, v), [] => dumpsStrA k ++ ':' :: ' ' :: dumpsIndL lvl v
  | lvl, (k, v), p :: t =>
    dumpsStrA k ++ ':' :: ' ' :: dumpsIndL lvl v
      ++ ',' :: '\n' :: indentSp lvl ++ dumpsIndObj lvl p t
termination_by _ p t => 1 + sizeOf p + sizeOf t

end

/-- `json.dumps(v, indent=2)`. -/
def json_dumps_ind (v : JVal) : String := (dumpsIndL 0 v).asString

/-- Index of the first occurrence of `c` (python `s.find(c)` when found). -/
def findIdxCh (cs : List Char) (c : Char) : Option Nat :=
  match cs with
  | [] => none
  | x :: t => if x = c then some 0 else (findIdxCh t c).map (· + 1)

/-- Index of the last occurrence of `c` (python `s.rfind(c)` when found). -/
def rfindIdxCh (cs : List Char) (c : Char) : Option Nat :=
  match findIdxCh cs.reverse c with
  | some i => some (cs.length - 1 - i)
  | none => none

/-- The substring from the first `\x7b` to the last `\x7d`, when the latter
comes later.  In `extract_json_from_response` this is both the match of the
regex `(\x7b[\s\S]*\x7d)` (`re.search` anchors at the first `\x7b` and the
greedy star runs to the last `\x7d`) and the explicit
`response[response.find(...):response.rfind(...) + 1]` slice — the source
computes the same substring twice. -/
def braceSlice (cs : List Char) : Option (List Char) :=
  match findIdxCh cs lbrace, rfindIdxCh cs rbrace with
  | some i, some j => if i < j then some ((cs.take (j + 1)).drop i) else none
  | _, _ => none

/-- The error structure returned when no JSON can be extracted
(`json_helper.py` lines 50-54). -/
def jsonFailSentinel (response : String) : JVal :=
  .jobj [("error", .jbool true),
         ("message", .jstr "Failed to parse model response as JSON"),
         ("raw_response", .jstr response)]

/-- `utils/json_helper.py`: `extract_json_from_response`.  Tries a full
parse, then a parse of the first-`\x7b`-to-last-`\x7d` slice (the regex
attempt and the find/rfind attempt parse the identical substring), and
finally returns the sentinel error mapping; it can never raise. -/
def extract_json_from_response (response : String) : JVal :=
  match jsonLoads response with
  | some v => v
  | none =>
    match braceSlice response.data with
    | some sub =>
      match jsonLoads (String.mk sub) with
      | some v => v
      | none => jsonFailSentinel response
    | none => jsonFailSentinel response

/-- Match of `re.match(r'^\d\x7b8\x7d$', s)`: eight digits, where `$` also
matches just before one final newline. -/
def reMatchD8 (s : String) : Bool :=
  let cs := s.data
  (cs.length = 8 ∧ cs.all isDigitCh)
    ∨ (cs.length = 9 ∧ (cs.take 8).all isDigitCh ∧ cs.getLastD ' ' = '\n')

/-- Match of `re.match(r'^\d\x7b4\x7d-\d\x7b2\x7d-\d\x7b2\x7d$', s)`. -/
def isIsoShape : List Char → Bool
  | [a, b, c, d, e, f, g, h, i, j] =>
    [a, b, c, d].all isDigitCh && e = '-' && [f, g].all isDigitCh && h = '-'
      && [i, j].all isDigitCh
  | _ => false

def reMatchIso (s : String) : Bool :=
  isIsoShape s.data || (s.data.getLastD ' ' = '\n' && isIsoShape s.data.dropLast)

/-- Validity of a Gregorian date as `datetime(y, m, d)` checks it
(`MINYEAR = 1`). -/
def validDate (y m d : Nat) : Bool :=
  1 ≤ y ∧ 1 ≤ m ∧ m ≤ 12 ∧ 1 ≤ d ∧ d ≤ daysInMonth y m

/-- `datetime.strptime(s, "%Y%m%d")`, returned as days since the epoch;
`ValueError` on anything but a valid eight-digit date. -/
def strptimeYmd (s : String) : Except PyErr Int :=
  let cs := s.data
  if cs.length = 8 ∧ cs.all isDigitCh then
    let y := digitsToNat (cs.take 4)
    let m := digitsToNat ((cs.drop 4).take 2)
    let d := digitsToNat (cs.drop 6)
    if validDate y m d then .ok (daysFromCivil y m d)
    else .error (valueErr ("time data \x27" ++ s ++ "\x27 does not match format \x27%Y%m%d\x27"))
  else .error (valueErr ("time data \x27" ++ s ++ "\x27 does not match format \x27%Y%m%d\x27"))

/-- `datetime.strptime(s, "%Y-%m-%d")`, returned as days since the epoch. -/
def strptimeIso (s : String) : Except PyErr Int :=
  match s.data with
  | [a, b, c, d, e, f, g, h, i, j] =>
    if [a, b, c, d].all isDigitCh ∧ e = '-' ∧ [f, g].all isDigitCh ∧ h = '-'
        ∧ [i, j].all isDigitCh then
      let y := digitsToNat [a, b, c, d]
      let m := digitsToNat [f, g]
      let dd := digitsToNat [i, j]
      if validDate y m dd then .ok (daysFromCivil y m dd)
      else .error (valueErr ("time data \x27" ++ s ++ "\x27 does not match format \x27%Y-%m-%d\x27"))
    else .error (valueErr ("time data \x27" ++ s ++ "\x27 does not match format \x27%Y-%m-%d\x27"))
  | _ => .error (valueErr ("time data \x27" ++ s ++ "\x27 does not match format \x27%Y-%m-%d\x27"))

/-! ### The analyzer registry (`prompts/section_analyzers_registry.py`)

The source registry is a class-level `Dict[str, Type[BaseSectionAnalyzer]]`;
here it is an insertion-ordered association list over an arbitrary entry
type `α` (an "analyzer class"), with the key taken from the entry by
`sectionNameOf` exactly as `register` reads `instance.section_name`. -/

/-- `SectionAnalyzerRegistry.register`: keys the entry by its declared
section name; a python dict assignment, so a duplicate key overwrites
(never an error). -/
def register {α : Type} (sectionNameOf : α → String) (cls : α)
    (reg : List (String × α)) : List (String × α) :=
  assocSet reg (sectionNameOf cls) cls

/-- `SectionAnalyzerRegistry.get_analyzer`: the registered entry for the
name, or an explicit `none` — never an exception. -/
def get_analyzer {α : Type} (reg : List (String × α)) (sectionName : String) : Option α :=
  assocFind? reg sectionName

/-- `SectionAnalyzerRegistry.get_all_section_names`. -/
def get_all_section_names {α : Type} (reg : List (String × α)) : List String :=
  reg.map Prod.fst

/-- The section names registered at startup, in the import order of
`prompts/analyzers/__init__.py`. -/
def defaultSectionNames : List String :=
  ["Path", "InstalledPrograms", "StartupPrograms", "RunningServices",
   "DiskSpace", "PerformanceData", "Network", "Environment"]

/-! ### Python semantics of the orchestrator-facing analyzer surface -/

/-- An analyzer class as the orchestrator and the prompt engine use one:
its declared identity plus the behaviour of its entry points.  The
behaviour functions take the LLM client and may raise (`Except`). -/
structure AnalyzerEntry where
  sectionName : String
  optionalInputFiles : List String
  usesChunking : Bool
  buildPromptWrapper : JVal → Dict → String
  analyzeChunkedFn : (String → Except PyErr String) → JVal → Dict → Except PyErr JVal
  analyzeStandardFn : (String → Except PyErr String) → JVal → Dict → Except PyErr JVal

/-- Replace every occurrence of `pat` (non-overlapping, left to right). -/
def replaceAllL (pat rep : List Char) : Nat → List Char → List Char
  | 0, cs => cs
  | _ + 1, [] => []
  | fuel + 1, c :: t =>
    if pat ≠ [] ∧ pat.isPrefixOf (c :: t) then
      rep ++ replaceAllL pat rep fuel ((c :: t).drop pat.length)
    else
      c :: replaceAllL pat rep fuel t

/-- Python `s.replace(pat, rep)`. -/
def pyReplace (s pat rep : String) : String :=
  (replaceAllL pat.data rep.data s.data.length s.data).asString

/-- The optional-input gathering loop shared by the orchestrator
(`analyzer.py` lines 155-161) and the prompt engine (lines 46-52):
`file_name.replace('.json', '')`, then copy the section when present. -/
def gather_additional (files : List String) (sections : Dict) : Dict :=
  files.foldl (fun acc fn =>
    let opt := pyReplace fn ".json" ""
    match dictFind? sections opt with
    | some v => dictSet acc opt v
    | none => acc) []

/-! ### The prompt engine (`prompt_engine.py`) -/

/-- The hard cap on the generic prompt's JSON dump. -/
def GENERIC_JSON_CAP : Nat := 10000

def truncMarker : String := "... [truncated for length]"

/-- The truncation applied to the serialized section data
(`prompt_engine.py` lines 72-73): python slicing counts characters. -/
def truncateAt (cap : Nat) (s : String) : String :=
  if s.data.length > cap then String.mk (s.data.take cap) ++ truncMarker else s

def genericPre1 : String := "\nYou are analyzing the \x27"

def genericPre2 : String :=
  "\x27 section of a Windows system state snapshot.\n\nAnalyze this section data:\n1. Identify potential issues or security risks\n2. Find optimization opportunities \n3. Look for unusual or suspicious configurations\n4. Suggest concrete improvements\n5. Prioritize recommendations by importance\n\nThe data for this section is:\n```json\n"

def resultSchemaBlock : String :=
  "\x7b\n  \"issues\": [\n    \x7b\n      \"severity\": \"critical|high|medium|low\",\n      \"title\": \"Brief description of the issue\",\n      \"description\": \"Detailed explanation\",\n      \"recommendation\": \"Specific action to resolve or improve\"\n    \x7d\n  ],\n  \"optimizations\": [\n    \x7b\n      \"impact\": \"high|medium|low\",\n      \"title\": \"Brief description of the optimization\",\n      \"description\": \"Detailed explanation\",\n      \"recommendation\": \"Specific action to implement\"\n    \x7d\n  ],\n  \"summary\": \"Brief overall assessment of this section\"\n\x7d"

def genericPost : String :=
  "\n```\n\nProvide your analysis as JSON with the following structure:\n"
    ++ resultSchemaBlock
    ++ "\n\nImportant: Respond ONLY with valid JSON, no other text before or after.\n"

/-- `PromptEngine._create_generic_prompt`. -/
def create_generic_prompt (sectionName : String) (sectionData : JVal) : String :=
  let section_json := truncateAt GENERIC_JSON_CAP (json_dumps sectionData)
  genericPre1 ++ sectionName ++ genericPre2 ++ section_json ++ genericPost

/-- `PromptEngine.create_section_prompt`: registry lookup, then either the
analyzer's wrapped prompt over its gathered optional inputs, or the generic
fallback. -/
def create_section_prompt (reg : List (String × AnalyzerEntry)) (sectionName : String)
    (sectionData : JVal) (allSections : Dict) : String :=
  match get_analyzer reg sectionName with
  | none => create_generic_prompt sectionName sectionData
  | some a => a.buildPromptWrapper sectionData (gather_additional a.optionalInputFiles allSections)

/-- The issue-harvesting loop of `PromptEngine.create_summary_prompt`
(lines 128-142): skip error-shaped section results, collect the
critical/high issues of the rest, tagged with their section. -/
def harvest_issues (sections : Dict) : Except PyErr (List JVal) :=
  sections.foldlM (fun acc (p : String × JVal) => do
    let (name, sa) := p
    let hasErr ← pyIn "error" sa
    if hasErr then
      pure acc
    else do
      let hasIssues ← pyIn "issues" sa
      if hasIssues then do
        let issuesVal ← pyGetD sa "issues" (.jarr [])
        let items ← pyIter issuesVal
        items.foldlM (fun acc2 issue => do
          let sev ← pyGet issue "severity"
          if eqStrKey "critical" sev ∨ eqStrKey "high" sev then do
            let title ← pyGet issue "title"
            let rec' ← pyGet issue "recommendation"
            pure (acc2 ++ [JVal.jobj [("section", .jstr name), ("severity", sev),
                                      ("title", title), ("recommendation", rec')]])
          else pure acc2) acc
      else pure acc) []

def summaryPromptPre1 : String := "\nYou are analyzing a Windows system state snapshot from computer "

def summaryPromptPre2 : String :=
  ".\n\nBased on the important issues found in the analysis, create an overall system summary.\n\nImportant issues detected:\n```json\n"

def summaryPromptPost : String :=
  "\n```\n\nProvide your summary as JSON with the following structure:\n\x7b\n  \"overall_health\": \"good|fair|poor\",\n  \"critical_issues_count\": number,\n  \"high_priority_issues_count\": number,\n  \"top_recommendations\": [\n    \x7b\n      \"priority\": 1,\n      \"description\": \"Clear description of the recommendation\",\n      \"rationale\": \"Why this is important\"\n    \x7d,\n    ...\n  ],\n  \"system_assessment\": \"Brief overall assessment of system health, performance, and security\",\n  \"next_steps\": \"Suggested next actions for the system administrator\"\n\x7d\n\nImportant: Respond ONLY with valid JSON, no other text before or after.\n"

/-- `PromptEngine.create_summary_prompt` over the snapshot metadata and the
per-section results collected so far. -/
def create_summary_prompt (snapshotMetadata : JVal) (sections : Dict) :
    Except PyErr String := do
  let important ← harvest_issues sections
  let issues_json := json_dumps_ind (.jarr important)
  let computerName ← pyGet snapshotMetadata "ComputerName"
  let osVersion ← pyGet snapshotMetadata "OSVersion"
  pure (summaryPromptPre1 ++ pyStr computerName ++ " running " ++ pyStr osVersion
    ++ summaryPromptPre2 ++ issues_json ++ summaryPromptPost)

/-! ### The InstalledPrograms analyzer
(`prompts/analyzers/installed_programs_analyzer.py`)

`datetime.now()` is impure; it enters the model as the parameter `today`,
the current day number.  `(now - midnight_date).days` equals exactly
`today - installDay` for every sign, since the time-of-day fraction is in
`[0, 1)` and `timedelta.days` floors. -/

/-- `InstalledProgramsAnalyzer.SOFTWARE_CATEGORIES`, in dict order. -/
def SOFTWARE_CATEGORIES : List (String × List String) :=
  [("security",
    ["antivirus", "firewall", "protection", "security", "defender",
     "malware", "encrypt", "vpn", "norton", "mcafee", "kaspersky",
     "avast", "bitdefender"]),
   ("development",
    ["visual studio", "vscode", "python", "node", "npm", "git", "docker",
     "kubernetes", "compiler", "ide", "java", "sdk", "development kit",
     "android studio", "xcode", "intellij", "pycharm", "eclipse"]),
   ("utilities",
    ["driver", "utility", "tool", "cleanup", "monitor", "backup", "restore",
     "system", "maintenance", "manager", "cleaner", "optimizer"]),
   ("bloatware",
    ["toolbar", "coupon", "offer", "trial", "shopping assistant", "browser helper",
     "optimizer", "cleaner", "speedup", "pc tune", "free gift", "win prize"])]

/-- `InstalledProgramsAnalyzer._categorize_program`: all categories whose
keyword list hits the lowercased name, in `SOFTWARE_CATEGORIES` order.
Raises (`AttributeError`) when the program is not a dict or its `Name`
value is not a string. -/
def categorize_program (program : JVal) : Except PyErr (List String) := do
  let nameV ← pyGetD program "Name" (.jstr "")
  let program_name ← pyLower nameV
  pure ((SOFTWARE_CATEGORIES.filter
    (fun p => p.2.any (fun kw => infixB kw.data program_name.data))).map Prod.fst)

/-- One element of the `recent_installations` metric. -/
structure RecentInstall where
  name : JVal
  date : String
  daysAgo : Int
deriving Repr

/-- One element of the `large_programs` metric (size in MB, exact). -/
structure LargeProgram where
  name : JVal
  sizeMb : Rat
deriving Repr

/-- The mutable locals of the `extract_key_metrics` scan loop. -/
structure IPScanState where
  countSecurity : Nat
  countDevelopment : Nat
  countUtilities : Nat
  countBloatware : Nat
  recents : List RecentInstall
  bloatNames : List JVal
  secNames : List JVal
  largePrograms : List LargeProgram
deriving Repr

def IPScanState.empty : IPScanState := ⟨0, 0, 0, 0, [], [], [], []⟩

def bumpCount (st : IPScanState) (c : String) : IPScanState :=
  if c = "security" then { st with countSecurity := st.countSecurity + 1 }
  else if c = "development" then { st with countDevelopment := st.countDevelopment + 1 }
  else if c = "utilities" then { st with countUtilities := st.countUtilities + 1 }
  else if c = "bloatware" then { st with countBloatware := st.countBloatware + 1 }
  else st

/-- Result of the install-date block of the metrics loop (lines 120-144):
either fall through to the bloatware/security/size checks, or `continue`
to the next program (unknown date format, or a `ValueError` from
`strptime`). -/
inductive DateStep where
  | through (recent : Option RecentInstall)
  | skipRest
deriving Repr

/-- The install-date block of `extract_key_metrics` (no exception can
escape it: non-strings are filtered by `isinstance`, `ValueError` is
caught and turned into `continue`). -/
def ipDateBlock (today : Int) (installDateV nameV : JVal) : DateStep :=
  match installDateV with
  | .jstr s =>
    if pyTruthy (.jstr s) then
      if reMatchD8 s then
        match strptimeYmd s with
        | .ok dt =>
          let days := today - dt
          .through (if days ≤ 30 then some ⟨nameV, s, days⟩ else none)
        | .error _ => .skipRest
      else if reMatchIso s then
        match strptimeIso s with
        | .ok dt =>
          let days := today - dt
          .through (if days ≤ 30 then some ⟨nameV, s, days⟩ else none)
        | .error _ => .skipRest
      else .skipRest
    else .through none
  | _ => .through none

/-- One iteration of the `extract_key_metrics` loop (lines 110-164).  Every
operation that can raise comes before the first state update, so an
iteration is all-or-nothing. -/
def ipScanProgram (today : Int) (program : JVal) (st : IPScanState) :
    Except PyErr IPScanState := do
  let nameDefV ← pyGetD program "Name" (.jstr "")
  let _program_name ← pyLower nameDefV
  let categories ← categorize_program program
  let st := categories.foldl bumpCount st
  let installDateV ← pyGet program "InstallDate"
  let nameV ← pyGet program "Name"
  match ipDateBlock today installDateV nameV with
  | .skipRest => pure st
  | .through recent =>
    let st := { st with recents := st.recents ++ recent.toList }
    let st :=
      if categories.contains "bloatware" then
        { st with bloatNames := st.bloatNames ++ [nameV] } else st
    let st :=
      if categories.contains "security" then
        { st with secNames := st.secNames ++ [nameV] } else st
    let sizeV ← pyGet program "EstimatedSize"
    if pyTruthy sizeV then
      match pyFloat sizeV with
      | .ok q =>
        let size_mb := q / 1024
        if size_mb > 1000 then
          pure { st with largePrograms := st.largePrograms ++ [⟨nameV, size_mb⟩] }
        else pure st
      | .error _ => pure st
    else pure st

/-- The metrics loop with the source's `try`/`except Exception` semantics:
the first raising iteration abandons the loop, keeping the state built so
far (list mutations persist across the caught exception). -/
def ipScanLoop (today : Int) : List JVal → IPScanState → IPScanState
  | [], st => st
  | p :: t, st =>
    match ipScanProgram today p st with
    | .ok st' => ipScanLoop today t st'
    | .error _ => st

/-- The key-metrics mapping for list-shaped data, as a record with the ten
keys of the returned dict (lines 169-180). -/
structure IPMetrics where
  total_programs : Nat
  recent_installations_count : Nat
  recent_installations : List RecentInstall
  security_software_count : Nat
  security_software : List JVal
  development_tools_count : Nat
  utility_software_count : Nat
  potential_bloatware_count : Nat
  potential_bloatware : List JVal
  large_programs : List LargeProgram
deriving Repr

def ipMetricsOf (today : Int) (programs : List JVal) : IPMetrics :=
  let st := ipScanLoop today programs .empty
  { total_programs := programs.length
    recent_installations_count := st.recents.length
    recent_installations := st.recents.take 5
    security_software_count := st.countSecurity
    security_software := st.secNames.take 5
    development_tools_count := st.countDevelopment
    utility_software_count := st.countUtilities
    potential_bloatware_count := st.countBloatware
    potential_bloatware := st.bloatNames.take 5
    large_programs := st.largePrograms.take 5 }

/-- Decimal form of an exact rational whose denominator divides a power of
ten (every value `float(..)/1024` takes); falls back at scale 64. -/
def ratToDec (q : Rat) : Int × Nat :=
  let rec go : Nat → Nat → Int × Nat
    | s, 0 => ((q * (10 : Rat) ^ s).num, s)
    | s, fuel + 1 =>
      if (q * (10 : Rat) ^ s).den = 1 then ((q * (10 : Rat) ^ s).num, s)
      else go (s + 1) fuel
  go 0 64

def RecentInstall.toJVal (r : RecentInstall) : JVal :=
  .jobj [("name", r.name), ("date", .jstr r.date), ("days_ago", .jint r.daysAgo)]

def LargeProgram.toJVal (l : LargeProgram) : JVal :=
  .jobj [("name", l.name), ("size_mb", .jfloat (ratToDec l.sizeMb).1 (ratToDec l.sizeMb).2)]

/-- The returned metrics dict, keys in source order. -/
def IPMetrics.toJVal (m : IPMetrics) : JVal :=
  .jobj [("total_programs", .jint m.total_programs),
         ("recent_installations_count", .jint m.recent_installations_count),
         ("recent_installations", .jarr (m.recent_installations.map RecentInstall.toJVal)),
         ("security_software_count", .jint m.security_software_count),
         ("security_software", .jarr m.security_software),
         ("development_tools_count", .jint m.development_tools_count),
         ("utility_software_count", .jint m.utility_software_count),
         ("potential_bloatware_count", .jint m.potential_bloatware_count),
         ("potential_bloatware", .jarr m.potential_bloatware),
         ("large_programs", .jarr (m.large_programs.map LargeProgram.toJVal))]

/-- `InstalledProgramsAnalyzer.extract_key_metrics`: the full ten-key
mapping for a list, the degraded `\x7b"total_programs": 0\x7d` mapping for
anything else; total — its scan loop catches every exception. -/
def ip_extract_key_metrics (today : Int) (sectionData : JVal) : JVal :=
  match sectionData with
  | .jarr programs => (ipMetricsOf today programs).toJVal
  | _ => .jobj [("total_programs", .jint 0)]

/-! ### The base analyzer (`prompts/base_section_analyzer.py`) -/

/-- `BaseSectionAnalyzer.format_json_template` (lines 115-133). -/
def format_json_template : JVal :=
  .jobj [("issues", .jarr [.jobj
            [("severity", .jstr "critical|high|medium|low"),
             ("title", .jstr "Brief description of the issue"),
             ("description", .jstr "Detailed explanation"),
             ("recommendation", .jstr "Specific action to resolve or improve")]]),
         ("optimizations", .jarr [.jobj
            [("impact", .jstr "high|medium|low"),
             ("title", .jstr "Brief description of the optimization"),
             ("description", .jstr "Detailed explanation"),
             ("recommendation", .jstr "Specific action to implement")]]),
         ("summary", .jstr "Brief overall assessment of this section")]

/-- `BaseSectionAnalyzer.build_prompt_wrapper`: the universal boilerplate
around an analyzer's core prompt. -/
def build_prompt_wrapper (sectionName core : String) : String :=
  "\nYou are analyzing the \x27" ++ sectionName
    ++ "\x27 section of a Windows system state snapshot.\n\n" ++ core
    ++ "\n\nProvide your analysis as JSON with the following structure:\n"
    ++ json_dumps_ind format_json_template
    ++ "\n\nImportant: Respond ONLY with valid JSON, no other text before or after.\n"

/-! ### InstalledPrograms single-call prompt and standard analysis -/

/-- `InstalledProgramsAnalyzer.MAX_JSON_LENGTH` (overridden to 1500). -/
def IP_MAX_JSON_LENGTH : Nat := 1500

/-- `InstalledProgramsAnalyzer.create_prompt`.  For non-list data the
metrics mapping degrades to `\x7b"total_programs": 0\x7d` and the first
subscript `metrics["recent_installations"]` (line 213) raises `KeyError`. -/
def ip_create_prompt (today : Int) (sectionData : JVal) (additional : Dict) :
    Except PyErr String :=
  let section_json := truncateAt IP_MAX_JSON_LENGTH (json_dumps sectionData)
  let startup_context :=
    if ¬ additional.isEmpty ∧ dictHas additional "StartupPrograms" then
      let sp := (dictFind? additional "StartupPrograms").getD .null
      let startup_count :=
        match sp with
        | .jarr xs => toString xs.length
        | _ => "unknown"
      "\n- Startup Programs: " ++ startup_count ++ " programs configured to run at startup"
    else ""
  match sectionData with
  | .jarr programs =>
    let m := ipMetricsOf today programs
    let recent_installs_str :=
      if m.recent_installations.isEmpty then "" else
        "\nRecent installations (last 30 days):"
          ++ String.join (m.recent_installations.map (fun p =>
               "\n  - " ++ pyStr p.name ++ " (" ++ toString p.daysAgo ++ " days ago)"))
    let security_str :=
      if m.security_software.isEmpty then "" else
        "\nSecurity software detected:"
          ++ String.join (m.security_software.map (fun p => "\n  - " ++ pyStr p))
    let bloatware_str :=
      if m.potential_bloatware.isEmpty then "" else
        "\nPotential bloatware detected:"
          ++ String.join (m.potential_bloatware.map (fun p => "\n  - " ++ pyStr p))
    let large_programs_str :=
      if m.large_programs.isEmpty then "" else
        "\nLarge programs detected:"
          ++ String.join (m.large_programs.map (fun p =>
               "\n  - " ++ pyStr p.name ++ " (" ++ formatFixed1 p.sizeMb ++ " MB)"))
    .ok ("\nAnalyze the installed programs data:\n\n1. Identify outdated software that could pose security risks\n2. Look for potentially unwanted programs or bloatware\n3. Check for software conflicts or redundant applications\n4. Identify suspicious or unusual software installations\n5. Note any missing essential security or utility software\n6. Check for recently installed software that might be relevant\n\nKey metrics:\n- Total installed programs: "
      ++ toString m.total_programs
      ++ "\n- Recent installations (last 30 days): " ++ toString m.recent_installations_count
      ++ "\n- Security software detected: " ++ toString m.security_software_count
      ++ "\n- Development tools detected: " ++ toString m.development_tools_count
      ++ "\n- Utility software detected: " ++ toString m.utility_software_count
      ++ "\n- Potential bloatware detected: " ++ toString m.potential_bloatware_count
      ++ startup_context ++ recent_installs_str ++ security_str ++ bloatware_str
      ++ large_programs_str
      ++ "\n\nNOTE: The installed programs data provided below may be truncated. Focus your analysis on the key metrics above and the sample of programs that can be seen.\n\nThe installed programs data for analysis:\n```json\n"
      ++ section_json ++ "\n```\n")
  | _ => .error ⟨"KeyError", "recent_installations"⟩

/-- `BaseSectionAnalyzer.analyze_standard` as inherited by
`InstalledProgramsAnalyzer` (identity `post_process_results`); the prompt
construction sits outside the `try`, the LLM call and the parse inside it.
Besides the result, the list of issued prompts is returned (the call log
of the model). -/
def ip_analyze_standard (gen : String → Except PyErr String) (today : Int)
    (sectionData : JVal) (additional : Dict) : Except PyErr (JVal × List String) := do
  let core ← ip_create_prompt today sectionData additional
  let prompt := build_prompt_wrapper "InstalledPrograms" core
  match gen prompt with
  | .ok response => pure (extract_json_from_response response, [prompt])
  | .error e =>
    pure (.jobj [("error", .jstr ("Analysis failed: " ++ e.msg)),
                 ("traceback", .jstr (pyTraceback e))], [prompt])

/-! ### The chunked-analysis protocol
(`InstalledProgramsAnalyzer.analyze_with_chunking`, lines 267-465) -/

/-- The category buckets dict (lines 287-294), fields in its key order. -/
structure Buckets where
  security : List JVal
  bloatware : List JVal
  development : List JVal
  utilities : List JVal
  recent : List JVal
  other : List JVal
deriving Repr

def Buckets.empty : Buckets := ⟨[], [], [], [], [], []⟩

/-- Iteration order of `categorized_programs.items()`: the six keys are
created before the loop, so insertion order is fixed. -/
def Buckets.toList (b : Buckets) : List (String × List JVal) :=
  [("security", b.security), ("bloatware", b.bloatware), ("development", b.development),
   ("utilities", b.utilities), ("recent", b.recent), ("other", b.other)]

/-- The six bucket keys, in dict order. -/
def bucketNames : List String :=
  ["security", "bloatware", "development", "utilities", "recent", "other"]

/-- Bucket contents by key. -/
def Buckets.get (b : Buckets) (c : String) : List JVal :=
  if c = "security" then b.security
  else if c = "bloatware" then b.bloatware
  else if c = "development" then b.development
  else if c = "utilities" then b.utilities
  else if c = "recent" then b.recent
  else b.other

/-- The total number of bucketed programs. -/
def Buckets.totalLen (b : Buckets) : Nat :=
  b.security.length + b.bloatware.length + b.development.length
    + b.utilities.length + b.recent.length + b.other.length

def Buckets.push (b : Buckets) (c : String) (p : JVal) : Buckets :=
  if c = "security" then { b with security := b.security ++ [p] }
  else if c = "bloatware" then { b with bloatware := b.bloatware ++ [p] }
  else if c = "development" then { b with development := b.development ++ [p] }
  else if c = "utilities" then { b with utilities := b.utilities ++ [p] }
  else if c = "recent" then { b with recent := b.recent ++ [p] }
  else { b with other := b.other ++ [p] }

/-- The recent-install test of the chunking loop (lines 302-311):
`if install_date and re.match(r'^\d\x7b8\x7d$', install_date)` followed by
`strptime` whose `ValueError` is caught and ignored.  A truthy non-string
value reaches `re.match` and raises `TypeError`. -/
def ip_chunk_recent (today : Int) (installDateV : JVal) : Except PyErr Bool :=
  if pyTruthy installDateV then
    match installDateV with
    | .jstr s =>
      if reMatchD8 s then
        match strptimeYmd s with
        | .ok dt => pure (decide (today - dt ≤ 30))
        | .error _ => pure false
      else pure false
    | v => .error (typeErr ("expected string or bytes-like object, got \x27"
                            ++ v.pyTypeName ++ "\x27"))
  else pure false

/-- The classification of one program by the chunking loop body
(lines 300-321): the recent-install test first, then the first matching
type category (`categorize_program` tests security, development,
utilities, bloatware in that fixed order), then `"other"`.  A non-dict
program or a non-string `Name` raises `AttributeError`. -/
def classify_one (today : Int) (program : JVal) : Except PyErr String := do
  let installDateV ← pyGet program "InstallDate"
  let isRecent ← ip_chunk_recent today installDateV
  if isRecent then pure "recent"
  else do
    let categories ← categorize_program program
    match categories with
    | c :: _ => pure c
    | [] => pure "other"

/-- One iteration of the categorization loop: classify, then append to the
named bucket. -/
def classifyStep (today : Int) (b : Buckets) (p : JVal) : Except PyErr Buckets := do
  let c ← classify_one today p
  pure (b.push c p)

/-- The categorization loop (lines 297-321): every program lands in the
bucket `classify_one` names; the first exception aborts (the caller then
falls back to the standard analysis). -/
def categorize_all (today : Int) (programs : List JVal) : Except PyErr Buckets :=
  programs.foldlM (classifyStep today) Buckets.empty

/-- `instructions` of `_create_category_prompt` (lines 488-531). -/
def catInstructions (category : String) : String :=
  if category = "security" then
    "\n1. Evaluate if essential security software is installed\n2. Check if security software is up-to-date\n3. Identify gaps in security coverage\n4. Assess potential conflicts between security applications\n5. Recommend security improvements if needed\n"
  else if category = "bloatware" then
    "\n1. Identify potentially unwanted programs and bloatware\n2. Evaluate the impact of bloatware on system performance\n3. Assess security risks associated with these programs\n4. Recommend which programs should be removed\n5. Suggest alternative software if replacements are needed\n"
  else if category = "development" then
    "\n1. Assess if development environments are properly configured\n2. Check for outdated development tools that might pose security risks\n3. Identify potential conflicts between development environments\n4. Evaluate completeness of the development toolchain\n5. Suggest optimization opportunities\n"
  else if category = "utilities" then
    "\n1. Assess if essential system utilities are installed\n2. Check for outdated utility software\n3. Identify redundant utilities that serve the same purpose\n4. Evaluate the usefulness of each utility\n5. Recommend optimization opportunities\n"
  else if category = "recent" then
    "\n1. Evaluate recently installed software for potential risks\n2. Identify unusual or suspicious recent installations\n3. Assess the impact of recent installations on system performance\n4. Check for potential conflicts with existing software\n5. Recommend monitoring or removal of suspicious recent installations\n"
  else if category = "other" then
    "\n1. Categorize these miscellaneous programs into functional groups\n2. Identify any outdated or potentially risky software\n3. Assess the overall necessity of these programs\n4. Look for unusual or suspicious applications\n5. Suggest optimization opportunities\n"
  else "Analyze these programs thoroughly."

/-- The JSON-structure block of a category prompt (its `summary` line
names the category). -/
def categorySchemaBlock (category : String) : String :=
  "\x7b\n  \"issues\": [\n    \x7b\n      \"severity\": \"critical|high|medium|low\",\n      \"title\": \"Brief description of the issue\",\n      \"description\": \"Detailed explanation\",\n      \"recommendation\": \"Specific action to resolve or improve\"\n    \x7d\n  ],\n  \"optimizations\": [\n    \x7b\n      \"impact\": \"high|medium|low\",\n      \"title\": \"Brief description of the optimization\",\n      \"description\": \"Detailed explanation\",\n      \"recommendation\": \"Specific action to implement\"\n    \x7d\n  ],\n  \"summary\": \"Brief assessment of the "
    ++ category ++ " programs\"\n\x7d"

/-- `InstalledProgramsAnalyzer._create_category_prompt`. -/
def create_category_prompt (category : String) (programs : List JVal)
    (total_count : Nat) (m : IPMetrics) : String :=
  let programs_json := truncateAt IP_MAX_JSON_LENGTH (json_dumps (.jarr programs))
  "\nYou are analyzing " ++ category
    ++ " software installed on a Windows system.\n\nThis analysis covers "
    ++ toString programs.length ++ " out of " ++ toString total_count ++ " total "
    ++ category ++ " programs installed on the system.\n\n"
    ++ catInstructions category
    ++ "\n\nSystem context:\n- Total installed programs: " ++ toString m.total_programs
    ++ "\n- Security software: " ++ toString m.security_software_count
    ++ " programs\n- Development tools: " ++ toString m.development_tools_count
    ++ " programs\n- Utility software: " ++ toString m.utility_software_count
    ++ " programs\n- Potential bloatware: " ++ toString m.potential_bloatware_count
    ++ " programs\n\nThe " ++ category ++ " programs for analysis:\n```json\n"
    ++ programs_json
    ++ "\n```\n\nProvide your analysis as JSON with the following structure:\n"
    ++ categorySchemaBlock category
    ++ "\n\nImportant: Respond ONLY with valid JSON, no other text before or after.\n"

/-- `InstalledProgramsAnalyzer._create_overall_summary_prompt`. -/
def create_overall_summary_prompt (category_summaries : List String) (m : IPMetrics) : String :=
  let all_summaries := String.intercalate "\n" category_summaries
  "\nYou are creating an overall summary for the InstalledPrograms section of a Windows system state snapshot.\n\nYou have been provided with summaries from multiple program categories. Create a consolidated overall summary that captures the key insights.\n\nSystem metrics:\n- Total installed programs: "
    ++ toString m.total_programs
    ++ "\n- Recent installations (last 30 days): " ++ toString m.recent_installations_count
    ++ "\n- Security software: " ++ toString m.security_software_count
    ++ " programs\n- Development tools: " ++ toString m.development_tools_count
    ++ " programs\n- Utility software: " ++ toString m.utility_software_count
    ++ " programs\n- Potential bloatware: " ++ toString m.potential_bloatware_count
    ++ " programs\n\nCategory summaries:\n" ++ all_summaries
    ++ "\n\nProvide your response as JSON with the following structure:\n\x7b\n  \"summary\": \"Comprehensive overall assessment of the installed programs that synthesizes all the individual category analyses\"\n\x7d\n\nImportant: Respond ONLY with valid JSON, no other text before or after.\n"

/-- The accumulators of the per-category loop, plus the prompts of the
issued category-level LLM calls. -/
structure CatAcc where
  all_issues : List JVal
  all_optimizations : List JVal
  category_summaries : List String
  callPrompts : List String
deriving Repr

def CatAcc.empty : CatAcc := ⟨[], [], [], []⟩

/-- `issue["category"] = category` on one element of a parsed issues list
(`TypeError` when the element is not a dict). -/
def tagWith (category : String) (v : JVal) : Except PyErr JVal :=
  match v with
  | .jobj kvs => .ok (.jobj (dictSet kvs "category" (.jstr category)))
  | v => .error (typeErr ("\x27" ++ v.pyTypeName ++ "\x27 object does not support item assignment"))

/-- The tagging loop over a parsed issues/optimizations value
(`for issue in ...: issue["category"] = category`): all-or-nothing, since
the `extend` only happens after the loop completes. -/
def tagAll (category : String) : List JVal → Except PyErr (List JVal)
  | [] => .ok []
  | x :: t => do
    let y ← tagWith category x
    let ys ← tagAll category t
    pure (y :: ys)

/-- A value carrying the tag `"category": c` (the shape of everything the
tagging loop emits). -/
def Tagged (c : String) (y : JVal) : Prop :=
  ∃ kvs, y = .jobj kvs ∧ dictFind? kvs "category" = some (.jstr c)

/-- Lines 370-374: the issues block of the collection step.  An exception
anywhere inside leaves the accumulators as they were (the `extend` is the
single commit point) and is reported to the caller. -/
def collectIssues (category : String) (ca : JVal) (acc : CatAcc) : CatAcc × Option PyErr :=
  match pyIn "issues" ca with
  | .error e => (acc, some e)
  | .ok hasIss =>
    if hasIss then
      match (do
        let issuesVal ← pyIndex ca "issues"
        let items ← pyIter issuesVal
        tagAll category items : Except PyErr (List JVal)) with
      | .error e => (acc, some e)
      | .ok tagged => ({ acc with all_issues := acc.all_issues ++ tagged }, none)
    else (acc, none)

/-- Lines 376-380: the optimizations block, analogous. -/
def collectOpts (category : String) (ca : JVal) (acc : CatAcc) : CatAcc × Option PyErr :=
  match pyIn "optimizations" ca with
  | .error e => (acc, some e)
  | .ok hasOpt =>
    if hasOpt then
      match (do
        let optsVal ← pyIndex ca "optimizations"
        let items ← pyIter optsVal
        tagAll category items : Except PyErr (List JVal)) with
      | .error e => (acc, some e)
      | .ok tagged => ({ acc with all_optimizations := acc.all_optimizations ++ tagged }, none)
    else (acc, none)

/-- Lines 382-383: the summary collection. -/
def collectSummary (category : String) (ca : JVal) (acc : CatAcc) : CatAcc × Option PyErr :=
  match pyIn "summary" ca with
  | .error e => (acc, some e)
  | .ok hasSum =>
    if hasSum then
      match pyIndex ca "summary" with
      | .error e => (acc, some e)
      | .ok sv =>
        ({ acc with category_summaries :=
            acc.category_summaries ++ [strUpper category ++ ": " ++ pyStr sv] }, none)
    else (acc, none)

/-- The result-collection steps for one category (lines 370-383): issues,
then optimizations, then the summary, stopping at the first exception with
the accumulators exactly as the last completed commit left them. -/
def collectCategory (category : String) (ca : JVal) (acc : CatAcc) : CatAcc × Option PyErr :=
  match collectIssues category ca acc with
  | (acc1, some e) => (acc1, some e)
  | (acc1, none) =>
    match collectOpts category ca acc1 with
    | (acc2, some e) => (acc2, some e)
    | (acc2, none) => collectSummary category ca acc2

/-- One non-empty category (lines 338-405): sample the first 15 programs,
issue one LLM call (its prompt is recorded in the call log), collect — or,
on any exception, append the error summary for this category and carry on
with whatever was committed. -/
def processOneCategory (gen : String → Except PyErr String) (category : String)
    (programs : List JVal) (m : IPMetrics) (acc : CatAcc) : CatAcc :=
  match gen (create_category_prompt category (programs.take 15) programs.length m) with
  | .error e =>
    { acc with
      callPrompts := acc.callPrompts
        ++ [create_category_prompt category (programs.take 15) programs.length m],
      category_summaries := acc.category_summaries
        ++ ["Error analyzing " ++ category ++ " programs: " ++ e.msg] }
  | .ok response =>
    match collectCategory category (extract_json_from_response response)
        { acc with callPrompts := acc.callPrompts
            ++ [create_category_prompt category (programs.take 15) programs.length m] } with
    | (acc', none) => acc'
    | (acc', some e) =>
      { acc' with category_summaries := acc'.category_summaries
          ++ ["Error analyzing " ++ category ++ " programs: " ++ e.msg] }

/-- The per-category loop (lines 333-405): empty buckets are skipped
without a call. -/
def process_categories (gen : String → Except PyErr String) (b : Buckets)
    (m : IPMetrics) : CatAcc :=
  b.toList.foldl (fun acc p =>
    if p.2.isEmpty then acc else processOneCategory gen p.1 p.2 m acc) CatAcc.empty

/-- The cross-category summary step (lines 407-463): one more LLM call on
the joined category summaries; any failure — transport or shape — falls
back to the newline-joined category summaries; an empty summary list skips
the call. -/
def ip_summary_phase (gen : String → Except PyErr String) (acc : CatAcc)
    (m : IPMetrics) : Dict × List String :=
  let aggregated : Dict :=
    [("issues", .jarr acc.all_issues), ("optimizations", .jarr acc.all_optimizations)]
  if acc.category_summaries.isEmpty then
    (dictSet aggregated "summary" (.jstr "No analysis could be generated for any program categories."), [])
  else
    let prompt := create_overall_summary_prompt acc.category_summaries m
    let fallback := String.intercalate "\n" acc.category_summaries
    match gen prompt with
    | .error _ => (dictSet aggregated "summary" (.jstr fallback), [prompt])
    | .ok response =>
      let summary_analysis := extract_json_from_response response
      match pyIn "summary" summary_analysis with
      | .error _ => (dictSet aggregated "summary" (.jstr fallback), [prompt])
      | .ok true =>
        match pyIndex summary_analysis "summary" with
        | .ok sv => (dictSet aggregated "summary" sv, [prompt])
        | .error _ => (dictSet aggregated "summary" (.jstr fallback), [prompt])
      | .ok false => (dictSet aggregated "summary" (.jstr fallback), [prompt])

/-- `InstalledProgramsAnalyzer.analyze_with_chunking`: the non-list guard,
the bucketing (falling back to the standard single-call analysis when the
categorization itself raises), the per-category calls, and the summary
phase.  The returned list holds the prompts of the issued LLM calls. -/
def ip_analyze_with_chunking (gen : String → Except PyErr String) (today : Int)
    (sectionData : JVal) (additional : Dict) : Except PyErr (JVal × List String) :=
  match sectionData with
  | .jarr programs =>
    let m := ipMetricsOf today programs
    match categorize_all today programs with
    | .error _ => ip_analyze_standard gen today sectionData additional
    | .ok buckets =>
      let acc := process_categories gen buckets m
      let (aggregated, sprompts) := ip_summary_phase gen acc m
      .ok (.jobj aggregated, acc.callPrompts ++ sprompts)
  | _ => .ok (.jobj [("error", .jstr "Invalid installed programs data format")], [])

/-! ### The Path analyzer (`prompts/analyzers/path_analyzer.py`) -/

/-- `PathAnalyzer.extract_key_metrics` (lines 26-43).  The generator
`sum(1 for p in section_data if not p.get('Exists', True))` calls `.get`
on every element of a list, with no exception handler: a non-dict element
raises `AttributeError` out of the method. -/
def pathScanStep (n : Int) (p : JVal) : Except PyErr Int := do
  let e ← pyGetD p "Exists" (.jbool true)
  pure (if pyTruthy e then n else n + 1)

def path_extract_key_metrics (sectionData : JVal) : Except PyErr JVal :=
  match sectionData with
  | .jarr ps => do
    let invalid ← ps.foldlM pathScanStep (0 : Int)
    .ok (.jobj [("total_path_entries", .jint ps.length),
                ("invalid_path_entries", .jint invalid),
                ("valid_path_entries", .jint (ps.length - invalid))])
  | _ =>
    .ok (.jobj [("total_path_entries", .jint 0),
                ("invalid_path_entries", .jint 0),
                ("valid_path_entries", .jint 0)])

/-! ### The orchestrator (`analyzer.py`, `SystemStateAnalyzer.analyze_snapshot`)

The data loader (out of scope, `data_loader.py`) either raises — modelled
as `Except.error` with the message of the raised exception — or returns a
mapping that always carries the `metadata` and `sections` keys, modelled
as the `Snapshot` structure.  `output_file`/`output_dir` are `None`, their
defaults: no file is written and no LLM log is kept.  With
`output_file = None` the console branch of the output block (lines
260-275) runs; its pretty-print sits in its own `try/except`, but the
`"error" in analysis_result.get("summary", \x7b\x7d)` probe at line 266
and the `analysis_result[\x27summary\x27][\x27error\x27]` subscript at
line 268 are unguarded, so they can raise out of `analyze_snapshot`. -/

structure Snapshot where
  metadata : JVal
  sections : Dict
deriving Repr

/-- The run configuration data entering the report metadata
(`datetime.now().isoformat()`, `config.model`, `config.server_url`). -/
structure RunCfg where
  analyzedAt : String
  model : JVal
  serverUrl : String

structure Report where
  metadata : Dict
  sections : Dict
  summary : JVal
deriving Repr

/-- The `analysis_result["metadata"]` dict (lines 75-84). -/
def report_metadata (cfg : RunCfg) (snapMeta : JVal) : Dict :=
  [("analyzed_at", .jstr cfg.analyzedAt),
   ("snapshot_metadata", snapMeta),
   ("analyzer_version", .jstr "1.0.0"),
   ("model", cfg.model),
   ("server_url", .jstr cfg.serverUrl)]

/-- The body of the per-section `try` (lines 103-179): registry lookup,
then either the generic prompt → one LLM call → best-effort parse, or the
specialized analyzer's chunked/standard entry point over its gathered
optional inputs. -/
def analyze_section_step (reg : List (String × AnalyzerEntry))
    (gen : String → Except PyErr String) (allSections : Dict)
    (sectionName : String) (sectionData : JVal) : Except PyErr JVal :=
  match get_analyzer reg sectionName with
  | none => do
    let prompt := create_section_prompt reg sectionName sectionData allSections
    let response ← gen prompt
    pure (extract_json_from_response response)
  | some a =>
    let additional := gather_additional a.optionalInputFiles allSections
    if a.usesChunking then a.analyzeChunkedFn gen sectionData additional
    else a.analyzeStandardFn gen sectionData additional

/-- The per-section boundary (lines 187-193): any exception becomes this
section's `\x7b"error", "traceback"\x7d` result. -/
def section_result (reg : List (String × AnalyzerEntry))
    (gen : String → Except PyErr String) (allSections : Dict)
    (sectionName : String) (sectionData : JVal) : JVal :=
  match analyze_section_step reg gen allSections sectionName sectionData with
  | .ok r => r
  | .error e =>
    .jobj [("error", .jstr ("Analysis failed: " ++ e.msg)),
           ("traceback", .jstr (pyTraceback e))]

/-- Whether a loaded section payload carries the loader's error marker
(line 98: `isinstance(section_data, dict) and "error" in section_data`). -/
def isLoadError (v : JVal) : Bool :=
  match v with
  | .jobj kvs => dictHas kvs "error"
  | _ => false

/-- The result recorded for one section of the loop (lines 94-193):
load errors are copied through without any LLM call; everything else goes
through the isolated per-section step. -/
def section_entry_result (reg : List (String × AnalyzerEntry))
    (gen : String → Except PyErr String) (allSections : Dict)
    (p : String × JVal) : JVal :=
  match p.2 with
  | .jobj kvs =>
    if dictHas kvs "error" then .jobj [("error", (dictFind? kvs "error").getD .null)]
    else section_result reg gen allSections p.1 (.jobj kvs)
  | v => section_result reg gen allSections p.1 v

/-- The `AnalyzingSections` loop: one entry assigned per section, in the
snapshot's own key order. -/
def analyze_sections_loop (reg : List (String × AnalyzerEntry))
    (gen : String → Except PyErr String) (sections : Dict) : Dict :=
  sections.foldl (fun acc p => dictSet acc p.1 (section_entry_result reg gen sections p)) []

/-- The summary error result (lines 245-248). -/
def summaryErrObj (e : PyErr) : JVal :=
  .jobj [("error", .jstr ("Summary generation failed: " ++ e.msg)),
         ("traceback", .jstr (pyTraceback e))]

/-- The `Summarizing` step (lines 195-248): always attempted, every
exception (prompt building or LLM call) caught into a summary-shaped
error. -/
def summary_result (gen : String → Except PyErr String) (snapMeta : JVal)
    (sectionsResult : Dict) : JVal :=
  match create_summary_prompt snapMeta sectionsResult with
  | .error e => summaryErrObj e
  | .ok prompt =>
    match gen prompt with
    | .error e => summaryErrObj e
    | .ok resp => extract_json_from_response resp

/-- The console branch of the output block (lines 260-275, run because
`output_file` is `None`): the `"error" in analysis_result.get("summary", \x7b\x7d)`
probe of line 266 — a `TypeError` when the summary parsed to a
non-iterable scalar — and, when the probe answers true, the unguarded
`analysis_result[\x27summary\x27][\x27error\x27]` subscript of line 268 — a
`TypeError` when the summary is a string or list that contains `"error"`.
(`analysis_result["summary"]` itself is always present here, set at line
237 or 245, and the pretty-print of line 271 has its own `try/except`.) -/
def console_summary_check (s : JVal) : Except PyErr Unit := do
  let hasErr ← pyIn "error" s
  if hasErr then do
    let _ ← pyIndex s "error"
    pure ()
  else pure ()

/-- `SystemStateAnalyzer.analyze_snapshot`: re-raises a load failure as
`RuntimeError(f"Failed to load snapshot data: ...")` (lines 66-70),
builds the complete report, and — `output_file` being `None` — runs the
console output block, whose unguarded summary probe can raise, before
returning the report (line 277). -/
def analyze_snapshot (reg : List (String × AnalyzerEntry))
    (gen : String → Except PyErr String) (cfg : RunCfg)
    (loadResult : Except String Snapshot) : Except PyErr Report :=
  match loadResult with
  | .error e => .error ⟨"RuntimeError", "Failed to load snapshot data: " ++ e⟩
  | .ok snap =>
    let sectionsResult := analyze_sections_loop reg gen snap.sections
    let summary := summary_result gen snap.metadata sectionsResult
    match console_summary_check summary with
    | .error e => .error e
    | .ok _ => .ok ⟨report_metadata cfg snap.metadata, sectionsResult, summary⟩

/-- `needle` occurs as a (contiguous) substring of `hay`. -/
def StrContains (hay needle : String) : Prop :=
  ∃ a b : String, hay = a ++ needle ++ b

/-- The characters that can end a `json.dumps` serialization. -/
def OkLast (c : Char) : Prop :=
  c = 'l' ∨ c = 'e' ∨ c = '"' ∨ c = ']' ∨ c = rbrace ∨ ∃ d, d < 10 ∧ c = digitChar d

/-! ### Concrete fixtures used as witness inputs -/

/-- A stub analyzer entry: a concrete registry value (its behaviour is
irrelevant to registry-level properties). -/
def stubEntry (n : String) : AnalyzerEntry :=
  ⟨n, [], false, fun _ _ => "", fun _ _ _ => .ok .null, fun _ _ _ => .ok .null⟩

/-- A registry whose keys are exactly the names registered at startup. -/
def sampleDefaultRegistry : List (String × AnalyzerEntry) :=
  defaultSectionNames.map (fun n => (n, stubEntry n))

/-- Section data whose JSON serialization exceeds the generic cap. -/
def sampleBigData : JVal := .jstr (String.mk (List.replicate 10001 'a'))

/-- Small section data that happens to contain the truncation-marker text
inside a string value. -/
def sampleMarkerData : JVal := .jobj [("x", .jstr "... [truncated for length]")]

/-- A concrete day number (2026-01-10) used as `datetime.now()` in tests. -/
def sampleToday : Int := daysFromCivil 2026 1 10

/-- A program that is both a recent install (nine days before
`sampleToday`) and bloatware by keyword. -/
def sampleRecentBloat : JVal :=
  .jobj [("Name", .jstr "coupon printer"), ("InstallDate", .jstr "20260101")]

def sampleBuckets : Buckets := ⟨[], [], [], [], [sampleRecentBloat], []⟩

/-- A stub LLM that answers every prompt with one fixed JSON analysis. -/
def sampleGen : String → Except PyErr String :=
  fun _ => .ok "\x7b\"issues\": [\x7b\"severity\": \"low\", \"title\": \"t\"\x7d], \"optimizations\": [\x7b\"impact\": \"low\", \"title\": \"o\"\x7d], \"summary\": \"fine\"\x7d"

/-- Buckets with items in exactly three categories. -/
def sampleBuckets3 : Buckets :=
  ⟨[.jobj [("Name", .jstr "norton")]], [], [.jobj [("Name", .jstr "python")]], [], [],
   [.jobj [("Name", .jstr "plain")]]⟩

def sampleMetrics3 : IPMetrics :=
  ipMetricsOf 0 [.jobj [("Name", .jstr "norton")], .jobj [("Name", .jstr "python")],
    .jobj [("Name", .jstr "plain")]]

/-- A security program with no install date. -/
def sampleSecProg : JVal := .jobj [("Name", .jstr "norton antivirus")]

def sampleSecBuckets : Buckets := ⟨[sampleSecProg], [], [], [], [], []⟩

/-- A stub LLM that answers category calls but fails the cross-category
consolidated-summary call (recognized by its fixed header text). -/
def sampleGenSummaryFail : String → Except PyErr String :=
  fun p =>
    if infixB "creating an overall summary".data p.data then
      .error ⟨"ConnectionError", "server down"⟩
    else .ok "\x7b\"issues\": [], \"summary\": \"security ok\"\x7d"

/-- A stub LLM whose every call raises a transport failure. -/
def failGen : String → Except PyErr String :=
  fun _ => .error ⟨"ConnectionError", "connection refused"⟩

/-- A concrete run configuration. -/
def sampleCfg : RunCfg := ⟨"2026-01-10T12:00:00", .jstr "m", "http://localhost:1234"⟩

/-- A two-section snapshot with distinct section names. -/
def sampleSnap : Snapshot :=
  ⟨.jobj [("SnapshotDate", .jstr "2026-01-10")],
   [("Alpha", .jstr "a"), ("Beta", .jstr "b")]⟩

/-- A one-section snapshot whose section carries the loader error marker,
so the loop records it without any LLM call. -/
def tinySnap : Snapshot :=
  ⟨.jobj [("SnapshotDate", .jstr "2026-01-10")],
   [("Alpha", .jobj [("error", .jstr "load failed")])]⟩

/-- A stub LLM that answers every prompt with the bare JSON scalar `42`. -/
def scalarGen : String → Except PyErr String := fun _ => .ok "42"

/-- A stub LLM that answers every prompt with a JSON string containing the
word `error`. -/
def strErrGen : String → Except PyErr String := fun _ => .ok "\"an error happened\""

/-! ## Supporting lemmas -/

theorem glast_append (l l' : List Char) (c : Char) (h : l'.getLast? = some c) :
    (l ++ l').getLast? = some c := by
  rw [List.getLast?_append, h]
  rfl

theorem digitChar_props (d : Nat) (h : d < 10) : digitChar d ≠ 'h' ∧ digitChar d ≠ ']' := by
  interval_cases d <;> exact ⟨by decide, by decide⟩

theorem okLast_ne_h {c : Char} (h : OkLast c) : c ≠ 'h' := by
  rcases h with rfl | rfl | rfl | rfl | rfl | ⟨d, hd, rfl⟩
  · decide
  · decide
  · decide
  · decide
  · decide
  · exact (digitChar_props d hd).1

theorem natToCharsAux_last (fuel n : Nat) (h : fuel ≠ 0) :
    ∃ d, d < 10 ∧ (natToCharsAux fuel n).getLast? = some (digitChar d) := by
  match fuel with
  | 0 => exact absurd rfl h
  | fuel + 1 =>
    by_cases hn : n < 10
    · exact ⟨n, hn, by simp [natToCharsAux, hn]⟩
    · exact ⟨n % 10, Nat.mod_lt _ (by norm_num),
        by simp [natToCharsAux, hn, List.getLast?_concat]⟩

theorem natToChars_last (n : Nat) :
    ∃ d, d < 10 ∧ (natToChars n).getLast? = some (digitChar d) :=
  natToCharsAux_last (n + 1) n (Nat.succ_ne_zero n)

theorem intToChars_last (i : Int) :
    ∃ d, d < 10 ∧ (intToChars i).getLast? = some (digitChar d) := by
  obtain ⟨d, hd, h⟩ := natToChars_last i.natAbs
  unfold intToChars
  by_cases hi : i < 0
  · refine ⟨d, hd, ?_⟩
    rw [if_pos hi, show ('-' :: natToChars i.natAbs) = ['-'] ++ natToChars i.natAbs from rfl]
    exact glast_append _ _ _ h
  · exact ⟨d, hd, by rw [if_neg hi]; exact h⟩

theorem renderFloatL_last (m : Int) (s : Nat) :
    ∃ d, d < 10 ∧ (renderFloatL m s).getLast? = some (digitChar d) := by
  unfold renderFloatL
  by_cases hs : s = 0
  · refine ⟨0, by norm_num, ?_⟩
    rw [if_pos hs]
    exact glast_append _ _ _ (by decide)
  · obtain ⟨d, hd, h⟩ := natToChars_last (m.natAbs % 10 ^ s)
    refine ⟨d, hd, ?_⟩
    rw [if_neg hs]
    have h1 : (List.replicate (s - (natToChars (m.natAbs % 10 ^ s)).length) '0'
        ++ natToChars (m.natAbs % 10 ^ s)).getLast? = some (digitChar d) :=
      glast_append _ _ _ h
    have h2 : ('.' :: (List.replicate (s - (natToChars (m.natAbs % 10 ^ s)).length) '0'
        ++ natToChars (m.natAbs % 10 ^ s))).getLast? = some (digitChar d) := by
      rw [show ('.' :: (List.replicate (s - (natToChars (m.natAbs % 10 ^ s)).length) '0'
        ++ natToChars (m.natAbs % 10 ^ s)))
        = ['.'] ++ (List.replicate (s - (natToChars (m.natAbs % 10 ^ s)).length) '0'
        ++ natToChars (m.natAbs % 10 ^ s)) from rfl]
      exact glast_append _ _ _ h1
    exact glast_append _ _ _ h2

theorem json_dumpsL_last_ok (v : JVal) :
    ∃ c, (json_dumpsL v).getLast? = some c ∧ OkLast c := by
  cases v with
  | null => exact ⟨'l', rfl, Or.inl rfl⟩
  | jbool b => cases b <;> exact ⟨'e', rfl, Or.inr (Or.inl rfl)⟩
  | jint n =>
    obtain ⟨d, hd, h⟩ := intToChars_last n
    exact ⟨digitChar d, h, Or.inr (Or.inr (Or.inr (Or.inr (Or.inr ⟨d, hd, rfl⟩))))⟩
  | jfloat m s =>
    obtain ⟨d, hd, h⟩ := renderFloatL_last m s
    exact ⟨digitChar d, h, Or.inr (Or.inr (Or.inr (Or.inr (Or.inr ⟨d, hd, rfl⟩))))⟩
  | jstr s =>
    refine ⟨'"', ?_, Or.inr (Or.inr (Or.inl rfl))⟩
    rw [show json_dumpsL (.jstr s) = ['"'] ++ ((s.data.map jsonEsc).flatten ++ ['"']) from rfl]
    exact glast_append _ _ _ (List.getLast?_concat _)
  | jarr xs =>
    refine ⟨']', ?_, Or.inr (Or.inr (Or.inr (Or.inl rfl)))⟩
    rw [show json_dumpsL (.jarr xs) = ['['] ++ (json_dumpsArr xs ++ [']']) from rfl]
    exact glast_append _ _ _ (List.getLast?_concat _)
  | jobj kvs =>
    refine ⟨rbrace, ?_, Or.inr (Or.inr (Or.inr (Or.inr (Or.inl rfl))))⟩
    rw [show json_dumpsL (.jobj kvs) = [lbrace] ++ (json_dumpsObj kvs ++ [rbrace]) from rfl]
    exact glast_append _ _ _ (List.getLast?_concat _)

theorem json_dumpsArr_last (x : JVal) (t : List JVal) :
    ∃ c, (json_dumpsArr (x :: t)).getLast? = some c ∧ OkLast c := by
  induction t generalizing x with
  | nil => simpa [json_dumpsArr] using json_dumpsL_last_ok x
  | cons y t ih =>
    obtain ⟨c, hc, hok⟩ := ih y
    refine ⟨c, ?_, hok⟩
    rw [show json_dumpsArr (x :: y :: t)
      = json_dumpsL x ++ ([',', ' '] ++ json_dumpsArr (y :: t)) from rfl]
    exact glast_append _ _ _ (glast_append _ _ _ hc)

theorem dumps_not_end_marker_pair (v : JVal) (B : List Char) :
    json_dumpsL v ≠ B ++ ['h', ']'] := by
  intro heq
  have hR : (B ++ ['h', ']']).getLast? = some ']' := by
    rw [show B ++ ['h', ']'] = (B ++ ['h']) ++ [']'] by simp]
    exact List.getLast?_concat _
  rw [← heq] at hR
  cases v with
  | null => exact absurd hR (by decide)
  | jbool b => cases b <;> exact absurd hR (by decide)
  | jint n =>
    obtain ⟨d, hd, h⟩ := intToChars_last n
    rw [show json_dumpsL (.jint n) = intToChars n from rfl, h] at hR
    exact (digitChar_props d hd).2 (Option.some.inj hR)
  | jfloat m s =>
    obtain ⟨d, hd, h⟩ := renderFloatL_last m s
    rw [show json_dumpsL (.jfloat m s) = renderFloatL m s from rfl, h] at hR
    exact (digitChar_props d hd).2 (Option.some.inj hR)
  | jstr s =>
    rw [show json_dumpsL (.jstr s) = ['"'] ++ ((s.data.map jsonEsc).flatten ++ ['"']) from rfl,
      glast_append _ _ _ (List.getLast?_concat _)] at hR
    exact absurd (Option.some.inj hR) (by decide)
  | jobj kvs =>
    rw [show json_dumpsL (.jobj kvs) = [lbrace] ++ (json_dumpsObj kvs ++ [rbrace]) from rfl,
      glast_append _ _ _ (List.getLast?_concat _)] at hR
    exact absurd (Option.some.inj hR) (by decide)
  | jarr xs =>
    have h2 : '[' :: json_dumpsArr xs = B ++ ['h'] := by
      have h3 : ('[' :: json_dumpsArr xs) ++ [']'] = (B ++ ['h']) ++ [']'] := by
        rw [show ('[' :: json_dumpsArr xs) ++ [']']
          = '[' :: (json_dumpsArr xs ++ [']']) from rfl]
        rw [show (B ++ ['h']) ++ [']'] = B ++ ['h', ']'] by simp]
        exact heq
      exact List.append_cancel_right h3
    have h4 : ('[' :: json_dumpsArr xs).getLast? = some 'h' := by
      rw [h2]
      exact List.getLast?_concat _
    cases xs with
    | nil => exact absurd h4 (by decide)
    | cons x t =>
      obtain ⟨c, hc, hok⟩ := json_dumpsArr_last x t
      rw [show ('[' :: json_dumpsArr (x :: t)) = ['['] ++ json_dumpsArr (x :: t) from rfl,
        glast_append _ _ _ hc] at h4
      exact okLast_ne_h hok (Option.some.inj h4)

/-- The truncation marker is never a suffix of a `json.dumps`
serialization: valid JSON text cannot end in `h]`. -/
theorem truncMarker_not_suffix (v : JVal) :
    ¬ truncMarker.data <:+ (json_dumps v).data := by
  intro h
  obtain ⟨pre, hpre⟩ := h
  refine dumps_not_end_marker_pair v (pre ++ "... [truncated for lengt".data) ?_
  have hdata : (json_dumps v).data = json_dumpsL v := rfl
  rw [← hdata, ← hpre,
    show truncMarker.data = "... [truncated for lengt".data ++ ['h', ']'] from rfl,
    List.append_assoc]

theorem assocFind_assocSet_self {α : Type} (d : List (String × α)) (k : String) (v : α) :
    assocFind? (assocSet d k v) k = some v := by
  induction d with
  | nil => simp [assocSet, assocFind?]
  | cons p t ih =>
    by_cases h : p.1 = k
    · simp [assocSet, assocFind?, h]
    · simp [assocSet, assocFind?, h, ih]

theorem assocFind_eq_none_of_not_mem {α : Type} (d : List (String × α)) (k : String)
    (h : k ∉ d.map Prod.fst) : assocFind? d k = none := by
  induction d with
  | nil => rfl
  | cons p t ih =>
    simp only [List.map_cons, List.mem_cons] at h
    push_neg at h
    obtain ⟨h1, h2⟩ := h
    simp only [assocFind?]
    rw [if_neg (fun hh : p.1 = k => h1 hh.symm)]
    exact ih h2

theorem pathScan_ok (xs : List JVal) :
    ∀ n : Int, (∀ x ∈ xs, ∃ kvs, x = JVal.jobj kvs) →
      ∃ m : Int, xs.foldlM pathScanStep n = .ok m := by
  induction xs with
  | nil => exact fun n _ => ⟨n, rfl⟩
  | cons x t ih =>
    intro n hxs
    obtain ⟨kvs, hx⟩ := hxs x (List.mem_cons_self x t)
    subst hx
    obtain ⟨m, hm⟩ :=
      ih (if pyTruthy ((dictFind? kvs "Exists").getD (.jbool true)) then n else n + 1)
        (fun y hy => hxs y (List.mem_cons_of_mem _ hy))
    refine ⟨m, ?_⟩
    simpa [List.foldlM_cons, pathScanStep, pyGetD, Except.bind] using hm

/-! ## The claims -/

/-- C7: registering two analyzers that declare the same `section_name`
leaves only the second resolvable: the second `register` overwrites the
first registry entry for that key, and `register` is total — there is no
duplicate-key error path. -/
theorem registry_last_registration_wins {α : Type} (nameOf : α → String)
    (reg : List (String × α)) (a1 a2 : α) (n : String)
    (_h1 : nameOf a1 = n) (h2 : nameOf a2 = n) :
    get_analyzer (register nameOf a2 (register nameOf a1 reg)) n = some a2 := by
  unfold register get_analyzer
  rw [h2]
  exact assocFind_assocSet_self _ _ _

theorem registry_last_registration_wins_witness :
    get_analyzer (register Prod.snd (2, "InstalledPrograms")
      (register Prod.snd (1, "InstalledPrograms") ([] : List (String × Nat × String))))
      "InstalledPrograms" = some (2, "InstalledPrograms") :=
  registry_last_registration_wins Prod.snd [] (1, "InstalledPrograms")
    (2, "InstalledPrograms") "InstalledPrograms" rfl rfl

/-- C9: the JSON-from-text extractor returns the direct parse of a string
that is already valid JSON; it digs the embedded object out of
`"noise \x7b\"a\":1\x7d noise"`; and on total failure — whether no brace
slice exists or the slice does not parse either — it returns the sentinel
`\x7b"error": true, "message": ..., "raw_response": <input>\x7d`.  It never
raises for any input: `extract_json_from_response` is a total function
into `JVal` (the only stdlib call, `json.loads`, has its
`JSONDecodeError` modelled as `none` and handled). -/
theorem extract_json_best_effort (s t u : String) (v : JVal) (sub : List Char)
    (hs : jsonLoads s = some v)
    (ht1 : jsonLoads t = none) (ht2 : braceSlice t.data = none)
    (hu1 : jsonLoads u = none) (hu2 : braceSlice u.data = some sub)
    (hu3 : jsonLoads (String.mk sub) = none) :
    extract_json_from_response s = v
    ∧ extract_json_from_response "noise \x7b\"a\":1\x7d noise" = .jobj [("a", .jint 1)]
    ∧ extract_json_from_response t = jsonFailSentinel t
    ∧ extract_json_from_response u = jsonFailSentinel u := by
  refine ⟨?_, rfl, ?_, ?_⟩
  · simp only [extract_json_from_response, hs]
  · simp only [extract_json_from_response, ht1, ht2]
  · simp only [extract_json_from_response, hu1, hu2, hu3]

theorem extract_json_best_effort_witness :
    extract_json_from_response "\x7b\"a\": 1\x7d" = .jobj [("a", .jint 1)]
    ∧ extract_json_from_response "noise \x7b\"a\":1\x7d noise" = .jobj [("a", .jint 1)]
    ∧ extract_json_from_response "no json here" = jsonFailSentinel "no json here"
    ∧ extract_json_from_response "\x7b not json \x7d" = jsonFailSentinel "\x7b not json \x7d" :=
  extract_json_best_effort "\x7b\"a\": 1\x7d" "no json here" "\x7b not json \x7d"
    (.jobj [("a", .jint 1)]) "\x7b not json \x7d".data rfl rfl rfl rfl rfl rfl

/-- C10: chunked InstalledPrograms analysis of non-list section data
returns the error mapping `\x7b"error": "Invalid installed programs data
format"\x7d` immediately: the empty call log shows no LLM call was issued,
and the `.ok` result shows no exception was raised — this error result
arises from no exception at all. -/
theorem chunking_nonlist_error_result (gen : String → Except PyErr String)
    (today : Int) (data : JVal) (additional : Dict)
    (h : ∀ xs, data ≠ JVal.jarr xs) :
    ip_analyze_with_chunking gen today data additional =
      .ok (.jobj [("error", .jstr "Invalid installed programs data format")], []) := by
  cases data with
  | jarr xs => exact absurd rfl (h xs)
  | null => rfl
  | jbool b => rfl
  | jint n => rfl
  | jfloat m s => rfl
  | jstr s => rfl
  | jobj kvs => rfl

theorem chunking_nonlist_error_result_witness :
    ip_analyze_with_chunking (fun _ => .ok "") 0 (.jobj [("oops", .null)]) [] =
      .ok (.jobj [("error", .jstr "Invalid installed programs data format")], []) :=
  chunking_nonlist_error_result (fun _ => .ok "") 0 (.jobj [("oops", .null)]) []
    (fun _ h => JVal.noConfusion h)

/-- C6 counterexample: the claim says `extract_key_metrics` never raises
for any input, including "a list whose elements are not objects" — but
`PathAnalyzer.extract_key_metrics` evaluates
`sum(1 for p in section_data if not p.get('Exists', True))` with no
exception handler, so on the list `["foo"]` the element `"foo"` receives
`.get` and the method raises `AttributeError`. -/
theorem path_metrics_raises_on_nonobject_element :
    path_extract_key_metrics (.jarr [.jstr "foo"]) = .error (attrErr "str" "get") := rfl

/-- C6 amended: for the two cited analyzers, `extract_key_metrics` is a
pure function of the section data (and the current day) with these
guarantees: the InstalledPrograms one returns a metrics mapping for every
input value — its scan loop catches every exception — while the Path one
tolerates a non-list value (degrading to zero metrics) and tolerates any
list whose elements are all objects, but not (see the counterexample) a
list containing a non-object element. -/
theorem extract_key_metrics_tolerance (today : Int) (w v : JVal) (xs : List JVal)
    (hv : ∀ ys, v ≠ JVal.jarr ys)
    (hxs : ∀ x ∈ xs, ∃ kvs, x = JVal.jobj kvs) :
    (∃ kvs, ip_extract_key_metrics today w = .jobj kvs
      ∧ (kvs.map Prod.fst =
          ["total_programs", "recent_installations_count", "recent_installations",
           "security_software_count", "security_software", "development_tools_count",
           "utility_software_count", "potential_bloatware_count", "potential_bloatware",
           "large_programs"]
        ∨ kvs.map Prod.fst = ["total_programs"]))
    ∧ path_extract_key_metrics v =
        .ok (.jobj [("total_path_entries", .jint 0), ("invalid_path_entries", .jint 0),
                    ("valid_path_entries", .jint 0)])
    ∧ (∃ mv, path_extract_key_metrics (.jarr xs) = .ok mv) := by
  refine ⟨?_, ?_, ?_⟩
  · cases w with
    | jarr programs => exact ⟨_, rfl, Or.inl rfl⟩
    | null => exact ⟨_, rfl, Or.inr rfl⟩
    | jbool b => exact ⟨_, rfl, Or.inr rfl⟩
    | jint n => exact ⟨_, rfl, Or.inr rfl⟩
    | jfloat m s => exact ⟨_, rfl, Or.inr rfl⟩
    | jstr s => exact ⟨_, rfl, Or.inr rfl⟩
    | jobj kvs => exact ⟨_, rfl, Or.inr rfl⟩
  · cases v with
    | jarr ys => exact absurd rfl (hv ys)
    | null => rfl
    | jbool b => rfl
    | jint n => rfl
    | jfloat m s => rfl
    | jstr s => rfl
    | jobj kvs => rfl
  · obtain ⟨m, hm⟩ := pathScan_ok xs 0 hxs
    refine ⟨.jobj [("total_path_entries", .jint xs.length), ("invalid_path_entries", .jint m),
                   ("valid_path_entries", .jint (xs.length - m))], ?_⟩
    simp only [path_extract_key_metrics]
    rw [hm]
    rfl

theorem extract_key_metrics_tolerance_witness :
    (∃ kvs, ip_extract_key_metrics 0 (.jarr [.jstr "garbage"]) = .jobj kvs
      ∧ (kvs.map Prod.fst =
          ["total_programs", "recent_installations_count", "recent_installations",
           "security_software_count", "security_software", "development_tools_count",
           "utility_software_count", "potential_bloatware_count", "potential_bloatware",
           "large_programs"]
        ∨ kvs.map Prod.fst = ["total_programs"]))
    ∧ path_extract_key_metrics (.jobj []) =
        .ok (.jobj [("total_path_entries", .jint 0), ("invalid_path_entries", .jint 0),
                    ("valid_path_entries", .jint 0)])
    ∧ (∃ mv, path_extract_key_metrics (.jarr [.jobj [("Exists", .jbool false)]]) = .ok mv) :=
  extract_key_metrics_tolerance 0 (.jarr [.jstr "garbage"]) (.jobj [])
    [.jobj [("Exists", .jbool false)]]
    (fun _ h => JVal.noConfusion h)
    (by intro x hx; rw [List.mem_singleton] at hx; exact ⟨_, hx⟩)

/-- C8: for any section name with no registered analyzer, the registry
lookup returns the explicit `none` (for the default key set,
`"NoSuchSection"` in particular) and `create_section_prompt` falls back to
the generic prompt, which contains the literal section name.  When the
section data's JSON serialization exceeds the 10,000-character cap, the
embedded dump is its first 10,000 characters followed by the literal
suffix `... [truncated for length]`; when it is within the cap the
embedded dump is the serialization unchanged, and the marker is not a
suffix of it (nothing is appended — a serialization can never end in the
marker). -/
theorem generic_prompt_fallback_and_truncation
    (reg : List (String × AnalyzerEntry)) (name : String) (allSections : Dict)
    (dataB dataS : JVal)
    (hreg : reg.map Prod.fst = defaultSectionNames)
    (hname : get_analyzer reg name = none)
    (hB : (json_dumps dataB).data.length > 10000)
    (hS : (json_dumps dataS).data.length ≤ 10000) :
    get_analyzer reg "NoSuchSection" = none
    ∧ create_section_prompt reg name dataB allSections = create_generic_prompt name dataB
    ∧ StrContains (create_generic_prompt name dataB) name
    ∧ truncateAt GENERIC_JSON_CAP (json_dumps dataB)
        = String.mk ((json_dumps dataB).data.take 10000) ++ truncMarker
    ∧ StrContains (create_generic_prompt name dataB)
        (truncateAt GENERIC_JSON_CAP (json_dumps dataB))
    ∧ truncateAt GENERIC_JSON_CAP (json_dumps dataS) = json_dumps dataS
    ∧ ¬ truncMarker.data <:+ (truncateAt GENERIC_JSON_CAP (json_dumps dataS)).data := by
  have h6 : truncateAt GENERIC_JSON_CAP (json_dumps dataS) = json_dumps dataS := by
    unfold truncateAt
    rw [if_neg (by simpa [GENERIC_JSON_CAP] using Nat.not_lt.mpr hS)]
  refine ⟨?_, ?_, ?_, ?_, ?_, h6, ?_⟩
  · show assocFind? reg "NoSuchSection" = none
    exact assocFind_eq_none_of_not_mem _ _ (by rw [hreg]; decide)
  · simp only [create_section_prompt, hname]
  · exact ⟨genericPre1,
      genericPre2 ++ truncateAt GENERIC_JSON_CAP (json_dumps dataB) ++ genericPost,
      by simp only [create_generic_prompt, String.append_assoc]⟩
  · unfold truncateAt
    rw [if_pos (by simpa [GENERIC_JSON_CAP] using hB)]
    rfl
  · exact ⟨genericPre1 ++ name ++ genericPre2, genericPost,
      by simp only [create_generic_prompt, String.append_assoc]⟩
  · rw [h6]
    exact truncMarker_not_suffix dataS

theorem generic_prompt_fallback_and_truncation_witness :
    get_analyzer sampleDefaultRegistry "NoSuchSection" = none
    ∧ create_section_prompt sampleDefaultRegistry "NoSuchSection" sampleBigData []
        = create_generic_prompt "NoSuchSection" sampleBigData
    ∧ StrContains (create_generic_prompt "NoSuchSection" sampleBigData) "NoSuchSection"
    ∧ truncateAt GENERIC_JSON_CAP (json_dumps sampleBigData)
        = String.mk ((json_dumps sampleBigData).data.take 10000) ++ truncMarker
    ∧ StrContains (create_generic_prompt "NoSuchSection" sampleBigData)
        (truncateAt GENERIC_JSON_CAP (json_dumps sampleBigData))
    ∧ truncateAt GENERIC_JSON_CAP (json_dumps sampleMarkerData) = json_dumps sampleMarkerData
    ∧ ¬ truncMarker.data <:+ (truncateAt GENERIC_JSON_CAP (json_dumps sampleMarkerData)).data :=
  generic_prompt_fallback_and_truncation sampleDefaultRegistry "NoSuchSection" []
    sampleBigData sampleMarkerData rfl rfl
    (by
      show ('"' :: (((List.replicate 10001 'a').map jsonEsc).flatten ++ ['"'])).length > 10000
      rw [List.map_replicate, show jsonEsc 'a' = ['a'] from by decide,
        List.length_cons, List.length_append, List.length_flatten, List.map_replicate,
        List.sum_replicate]
      norm_num)
    (by decide)

theorem ebind_ok {α β : Type} (x : α) (f : α → Except PyErr β) :
    (Except.ok x : Except PyErr α) >>= f = f x := rfl

theorem ebind_err {α β : Type} (e : PyErr) (f : α → Except PyErr β) :
    (Except.error e : Except PyErr α) >>= f = .error e := rfl

theorem categorize_program_sub (p : JVal) (cats : List String)
    (hc : categorize_program p = .ok cats) :
    ∀ x ∈ cats, x ∈ ["security", "development", "utilities", "bloatware"] := by
  intro x hx
  unfold categorize_program at hc
  cases hn : pyGetD p "Name" (.jstr "") with
  | error e => rw [hn, ebind_err] at hc; exact absurd hc (by simp)
  | ok nv =>
    rw [hn, ebind_ok] at hc
    cases hl : pyLower nv with
    | error e => rw [hl, ebind_err] at hc; exact absurd hc (by simp)
    | ok nm =>
      rw [hl, ebind_ok] at hc
      cases hc
      have hsub := List.map_subset (f := Prod.fst)
        (List.filter_subset'
          (l := SOFTWARE_CATEGORIES)
          (p := fun q => q.2.any (fun kw => infixB kw.data nm.data)))
      have hx2 := hsub hx
      rw [show SOFTWARE_CATEGORIES.map Prod.fst
        = ["security", "development", "utilities", "bloatware"] from rfl] at hx2
      exact hx2

theorem classify_mem (today : Int) (p : JVal) (c : String)
    (h : classify_one today p = .ok c) : c ∈ bucketNames := by
  unfold classify_one at h
  cases hg : pyGet p "InstallDate" with
  | error e => rw [hg, ebind_err] at h; exact absurd h (by simp)
  | ok idv =>
    rw [hg, ebind_ok] at h
    cases hr : ip_chunk_recent today idv with
    | error e => rw [hr, ebind_err] at h; exact absurd h (by simp)
    | ok isRec =>
      rw [hr, ebind_ok] at h
      cases isRec with
      | true =>
        rw [if_pos rfl] at h
        cases h
        decide
      | false =>
        rw [if_neg Bool.false_ne_true] at h
        cases hc : categorize_program p with
        | error e => rw [hc, ebind_err] at h; exact absurd h (by simp)
        | ok cats =>
          rw [hc, ebind_ok] at h
          cases cats with
          | nil => cases h; decide
          | cons c0 cs =>
            cases h
            have h4 := categorize_program_sub p (c :: cs) hc c (List.mem_cons_self c cs)
            fin_cases h4 <;> decide

theorem push_get (b : Buckets) (cp c : String) (p : JVal)
    (hcp : cp ∈ bucketNames) (hc : c ∈ bucketNames) :
    (b.push cp p).get c = if cp = c then b.get c ++ [p] else b.get c := by
  fin_cases hcp <;> fin_cases hc <;> simp [Buckets.push, Buckets.get]

theorem push_total (b : Buckets) (c : String) (p : JVal) :
    (b.push c p).totalLen = b.totalLen + 1 := by
  unfold Buckets.push Buckets.totalLen
  split_ifs <;> simp <;> omega

theorem categorize_aux (today : Int) (l : List JVal) :
    ∀ (b0 b : Buckets), l.foldlM (classifyStep today) b0 = .ok b →
      ∀ c ∈ bucketNames,
        b.get c = b0.get c
          ++ l.filter (fun p => decide (classify_one today p = .ok c)) := by
  induction l with
  | nil =>
    intro b0 b h c _
    cases h
    simp
  | cons p t ih =>
    intro b0 b h c hc
    rw [List.foldlM_cons] at h
    cases hcl : classify_one today p with
    | error e =>
      rw [show classifyStep today b0 p = .error e by
        simp [classifyStep, hcl, ebind_err], ebind_err] at h
      exact absurd h (by simp)
    | ok cp =>
      rw [show classifyStep today b0 p = .ok (b0.push cp p) by
        simp [classifyStep, hcl, ebind_ok], ebind_ok] at h
      have hcp := classify_mem today p cp hcl
      have hrec := ih (b0.push cp p) b h c hc
      rw [hrec, push_get b0 cp c p hcp hc, List.filter_cons]
      by_cases hec : cp = c
      · subst hec
        simp [hcl]
      · simp [hcl, hec]

theorem categorize_total (today : Int) (l : List JVal) :
    ∀ (b0 b : Buckets), l.foldlM (classifyStep today) b0 = .ok b →
      b.totalLen = b0.totalLen + l.length := by
  induction l with
  | nil =>
    intro b0 b h
    cases h
    simp
  | cons p t ih =>
    intro b0 b h
    rw [List.foldlM_cons] at h
    cases hcl : classify_one today p with
    | error e =>
      rw [show classifyStep today b0 p = .error e by
        simp [classifyStep, hcl, ebind_err], ebind_err] at h
      exact absurd h (by simp)
    | ok cp =>
      rw [show classifyStep today b0 p = .ok (b0.push cp p) by
        simp [classifyStep, hcl, ebind_ok], ebind_ok] at h
      have := ih (b0.push cp p) b h
      rw [this, push_total]
      simp [Nat.add_comm, Nat.add_assoc, Nat.add_left_comm]

/-- C3: under chunked InstalledPrograms categorization, every bucket holds
exactly the programs the ordered first-match classifier assigns to it (so
each program of the list lands in exactly one bucket, and the bucket sizes
sum to the list length); the recent-install predicate (an eight-digit
`InstallDate` within the last 30 days) is tested before any keyword
category; when it is false the category is the head of
`categorize_program` — which tests security, development, utilities,
bloatware in that fixed order — or `"other"` when nothing matches; and a
program classified `"recent"` never reaches the `bloatware` bucket. -/
theorem chunking_first_match_classification (today : Int) (programs : List JVal)
    (b : Buckets) (h : categorize_all today programs = .ok b) :
    (∀ c ∈ bucketNames,
        b.get c = programs.filter (fun p => decide (classify_one today p = .ok c)))
    ∧ b.totalLen = programs.length
    ∧ (∀ (s : String) (dt : Int), reMatchD8 s = true → strptimeYmd s = .ok dt →
        today - dt ≤ 30 → ip_chunk_recent today (.jstr s) = .ok true)
    ∧ (∀ (p idv : JVal), pyGet p "InstallDate" = .ok idv →
        ip_chunk_recent today idv = .ok true → classify_one today p = .ok "recent")
    ∧ (∀ (p idv : JVal) (cats : List String), pyGet p "InstallDate" = .ok idv →
        ip_chunk_recent today idv = .ok false → categorize_program p = .ok cats →
        classify_one today p = .ok (cats.headD "other"))
    ∧ (∀ p ∈ programs, classify_one today p = .ok "recent" → p ∉ b.bloatware) := by
  have hfilter := categorize_aux today programs Buckets.empty b h
  refine ⟨?_, ?_, ?_, ?_, ?_, ?_⟩
  · intro c hc
    have hg := hfilter c hc
    rw [hg]
    fin_cases hc <;> rfl
  · have := categorize_total today programs Buckets.empty b h
    simpa [Buckets.empty, Buckets.totalLen] using this
  · intro s dt hre hdt h30
    have hs : pyTruthy (.jstr s) = true := by
      simp only [pyTruthy, decide_eq_true_eq]
      intro hempty
      subst hempty
      revert hre
      decide
    unfold ip_chunk_recent
    rw [if_pos hs]
    show (if reMatchD8 s = true then
        match strptimeYmd s with
        | Except.ok dt => pure (decide (today - dt ≤ 30))
        | Except.error _ => pure false
      else pure false) = Except.ok true
    rw [if_pos hre, hdt]
    simp only [decide_eq_true_eq] at *
    rw [show decide (today - dt ≤ 30) = true from decide_eq_true h30]
    rfl
  · intro p idv hg hr
    unfold classify_one
    rw [hg, ebind_ok, hr, ebind_ok]
    rfl
  · intro p idv cats hg hr hcats
    unfold classify_one
    rw [hg, ebind_ok, hr, ebind_ok, if_neg Bool.false_ne_true, hcats, ebind_ok]
    cases cats <;> rfl
  · intro p hp hcl hmem
    have hb : b.bloatware = programs.filter
        (fun q => decide (classify_one today q = .ok "bloatware")) := by
      have := hfilter "bloatware" (by decide)
      simpa [Buckets.get, Buckets.empty] using this
    rw [hb] at hmem
    have hq := List.of_mem_filter hmem
    rw [hcl] at hq
    simp at hq

theorem chunking_first_match_classification_witness :
    sampleBuckets.get "recent" = [sampleRecentBloat]
    ∧ classify_one sampleToday sampleRecentBloat = .ok "recent"
    ∧ categorize_program sampleRecentBloat = .ok ["bloatware"]
    ∧ sampleRecentBloat ∉ sampleBuckets.bloatware := by
  have hcat : categorize_all sampleToday [sampleRecentBloat] = .ok sampleBuckets := rfl
  have hmain := chunking_first_match_classification sampleToday [sampleRecentBloat]
    sampleBuckets hcat
  have hrecent : classify_one sampleToday sampleRecentBloat = .ok "recent" :=
    hmain.2.2.2.1 sampleRecentBloat (.jstr "20260101") rfl
      (hmain.2.2.1 "20260101" (daysFromCivil 2026 1 1) (by decide) rfl (by decide))
  refine ⟨?_, hrecent, rfl, ?_⟩
  · rw [hmain.1 "recent" (by decide)]
    rfl
  · exact hmain.2.2.2.2.2 sampleRecentBloat (List.mem_singleton.mpr rfl) hrecent

theorem tagWith_shape (c : String) (x y : JVal) (h : tagWith c x = .ok y) : Tagged c y := by
  cases x with
  | jobj kvs =>
    simp only [tagWith] at h
    cases h
    exact ⟨dictSet kvs "category" (.jstr c), rfl,
      assocFind_assocSet_self kvs "category" (.jstr c)⟩
  | null => exact absurd h (by simp [tagWith])
  | jbool b => exact absurd h (by simp [tagWith])
  | jint n => exact absurd h (by simp [tagWith])
  | jfloat m s => exact absurd h (by simp [tagWith])
  | jstr s => exact absurd h (by simp [tagWith])
  | jarr xs => exact absurd h (by simp [tagWith])

theorem tagAll_mem (c : String) (items : List JVal) :
    ∀ (out : List JVal), tagAll c items = .ok out → ∀ y ∈ out, Tagged c y := by
  induction items with
  | nil =>
    intro out h y hy
    cases h
    simp at hy
  | cons x t ih =>
    intro out h y hy
    simp only [tagAll] at h
    cases htw : tagWith c x with
    | error e => rw [htw, ebind_err] at h; exact absurd h (by simp)
    | ok y0 =>
      rw [htw, ebind_ok] at h
      cases hta : tagAll c t with
      | error e => rw [hta, ebind_err] at h; exact absurd h (by simp)
      | ok ys =>
        rw [hta, ebind_ok] at h
        cases h
        rcases List.mem_cons.mp hy with rfl | hy'
        · exact tagWith_shape c x y htw
        · exact ih ys hta y hy'

theorem collectIssues_spec (c : String) (ca : JVal) (acc : CatAcc) :
    (collectIssues c ca acc).1.callPrompts = acc.callPrompts
    ∧ (collectIssues c ca acc).1.all_optimizations = acc.all_optimizations
    ∧ (collectIssues c ca acc).1.category_summaries = acc.category_summaries
    ∧ ∀ y ∈ (collectIssues c ca acc).1.all_issues, y ∈ acc.all_issues ∨ Tagged c y := by
  cases hIn : pyIn "issues" ca with
  | error e =>
    have hred : collectIssues c ca acc = (acc, some e) := by simp [collectIssues, hIn]
    rw [hred]
    exact ⟨rfl, rfl, rfl, fun y hy => Or.inl hy⟩
  | ok hasIss =>
    cases hasIss with
    | false =>
      have hred : collectIssues c ca acc = (acc, none) := by simp [collectIssues, hIn]
      rw [hred]
      exact ⟨rfl, rfl, rfl, fun y hy => Or.inl hy⟩
    | true =>
      have hred : collectIssues c ca acc = (match (do
          let issuesVal ← pyIndex ca "issues"
          let items ← pyIter issuesVal
          tagAll c items : Except PyErr (List JVal)) with
        | .error e => (acc, some e)
        | .ok tagged => ({ acc with all_issues := acc.all_issues ++ tagged }, none)) := by
        simp [collectIssues, hIn]
      rw [hred]
      cases hdo : (do
        let issuesVal ← pyIndex ca "issues"
        let items ← pyIter issuesVal
        tagAll c items : Except PyErr (List JVal)) with
      | error e => exact ⟨rfl, rfl, rfl, fun y hy => Or.inl hy⟩
      | ok tagged =>
        refine ⟨rfl, rfl, rfl, ?_⟩
        intro y hy
        rcases List.mem_append.mp hy with h1 | h2
        · exact Or.inl h1
        · right
          cases hidx : pyIndex ca "issues" with
          | error e => rw [hidx, ebind_err] at hdo; exact absurd hdo (by simp)
          | ok iv =>
            rw [hidx, ebind_ok] at hdo
            cases hit : pyIter iv with
            | error e => rw [hit, ebind_err] at hdo; exact absurd hdo (by simp)
            | ok items => rw [hit, ebind_ok] at hdo; exact tagAll_mem c items tagged hdo y h2

theorem collectOpts_spec (c : String) (ca : JVal) (acc : CatAcc) :
    (collectOpts c ca acc).1.callPrompts = acc.callPrompts
    ∧ (collectOpts c ca acc).1.all_issues = acc.all_issues
    ∧ (collectOpts c ca acc).1.category_summaries = acc.category_summaries
    ∧ ∀ y ∈ (collectOpts c ca acc).1.all_optimizations,
        y ∈ acc.all_optimizations ∨ Tagged c y := by
  cases hIn : pyIn "optimizations" ca with
  | error e =>
    have hred : collectOpts c ca acc = (acc, some e) := by simp [collectOpts, hIn]
    rw [hred]
    exact ⟨rfl, rfl, rfl, fun y hy => Or.inl hy⟩
  | ok hasOpt =>
    cases hasOpt with
    | false =>
      have hred : collectOpts c ca acc = (acc, none) := by simp [collectOpts, hIn]
      rw [hred]
      exact ⟨rfl, rfl, rfl, fun y hy => Or.inl hy⟩
    | true =>
      have hred : collectOpts c ca acc = (match (do
          let optsVal ← pyIndex ca "optimizations"
          let items ← pyIter optsVal
          tagAll c items : Except PyErr (List JVal)) with
        | .error e => (acc, some e)
        | .ok tagged =>
          ({ acc with all_optimizations := acc.all_optimizations ++ tagged }, none)) := by
        simp [collectOpts, hIn]
      rw [hred]
      cases hdo : (do
        let optsVal ← pyIndex ca "optimizations"
        let items ← pyIter optsVal
        tagAll c items : Except PyErr (List JVal)) with
      | error e => exact ⟨rfl, rfl, rfl, fun y hy => Or.inl hy⟩
      | ok tagged =>
        refine ⟨rfl, rfl, rfl, ?_⟩
        intro y hy
        rcases List.mem_append.mp hy with h1 | h2
        · exact Or.inl h1
        · right
          cases hidx : pyIndex ca "optimizations" with
          | error e => rw [hidx, ebind_err] at hdo; exact absurd hdo (by simp)
          | ok iv =>
            rw [hidx, ebind_ok] at hdo
            cases hit : pyIter iv with
            | error e => rw [hit, ebind_err] at hdo; exact absurd hdo (by simp)
            | ok items => rw [hit, ebind_ok] at hdo; exact tagAll_mem c items tagged hdo y h2

theorem collectSummary_spec (c : String) (ca : JVal) (acc : CatAcc) :
    (collectSummary c ca acc).1.callPrompts = acc.callPrompts
    ∧ (collectSummary c ca acc).1.all_issues = acc.all_issues
    ∧ (collectSummary c ca acc).1.all_optimizations = acc.all_optimizations := by
  cases hIn : pyIn "summary" ca with
  | error e =>
    have hred : collectSummary c ca acc = (acc, some e) := by simp [collectSummary, hIn]
    rw [hred]
    exact ⟨rfl, rfl, rfl⟩
  | ok hasSum =>
    cases hasSum with
    | false =>
      have hred : collectSummary c ca acc = (acc, none) := by simp [collectSummary, hIn]
      rw [hred]
      exact ⟨rfl, rfl, rfl⟩
    | true =>
      have hred : collectSummary c ca acc = (match pyIndex ca "summary" with
        | .error e => (acc, some e)
        | .ok sv =>
          ({ acc with category_summaries :=
              acc.category_summaries ++ [strUpper c ++ ": " ++ pyStr sv] }, none)) := by
        simp [collectSummary, hIn]
      rw [hred]
      cases pyIndex ca "summary" with
      | error e => exact ⟨rfl, rfl, rfl⟩
      | ok sv => exact ⟨rfl, rfl, rfl⟩

theorem collectCategory_spec (c : String) (ca : JVal) (acc : CatAcc) :
    (collectCategory c ca acc).1.callPrompts = acc.callPrompts
    ∧ (∀ y ∈ (collectCategory c ca acc).1.all_issues, y ∈ acc.all_issues ∨ Tagged c y)
    ∧ (∀ y ∈ (collectCategory c ca acc).1.all_optimizations,
        y ∈ acc.all_optimizations ∨ Tagged c y) := by
  cases h1 : collectIssues c ca acc with
  | mk acc1 e1 =>
    have s1 := collectIssues_spec c ca acc
    rw [h1] at s1
    cases e1 with
    | some e =>
      have step1 : collectCategory c ca acc = (acc1, some e) := by
        unfold collectCategory
        rw [h1]
      rw [step1]
      exact ⟨s1.1, fun y hy => s1.2.2.2 y hy, fun y hy => Or.inl (s1.2.1 ▸ hy)⟩
    | none =>
      have step1 : collectCategory c ca acc = (match collectOpts c ca acc1 with
          | (acc2, some e) => (acc2, some e)
          | (acc2, none) => collectSummary c ca acc2) := by
        unfold collectCategory
        rw [h1]
      cases h2 : collectOpts c ca acc1 with
      | mk acc2 e2 =>
        have s2 := collectOpts_spec c ca acc1
        rw [h2] at s2
        cases e2 with
        | some e =>
          have step2 : collectCategory c ca acc = (acc2, some e) := by
            rw [step1, h2]
          rw [step2]
          refine ⟨s2.1.trans s1.1, ?_, ?_⟩
          · intro y hy
            exact s1.2.2.2 y (s2.2.1 ▸ hy)
          · intro y hy
            rcases s2.2.2.2 y hy with h | h
            · exact Or.inl (s1.2.1 ▸ h)
            · exact Or.inr h
        | none =>
          have step2 : collectCategory c ca acc = collectSummary c ca acc2 := by
            rw [step1, h2]
          rw [step2]
          have s3 := collectSummary_spec c ca acc2
          refine ⟨(s3.1.trans s2.1).trans s1.1, ?_, ?_⟩
          · intro y hy
            exact s1.2.2.2 y (s2.2.1 ▸ s3.2.1 ▸ hy)
          · intro y hy
            rcases s2.2.2.2 y (s3.2.2 ▸ hy) with h | h
            · exact Or.inl (s1.2.1 ▸ h)
            · exact Or.inr h

theorem processOne_spec (gen : String → Except PyErr String) (c : String)
    (ps : List JVal) (m : IPMetrics) (acc : CatAcc) :
    (processOneCategory gen c ps m acc).callPrompts
      = acc.callPrompts ++ [create_category_prompt c (ps.take 15) ps.length m]
    ∧ (∀ y ∈ (processOneCategory gen c ps m acc).all_issues,
        y ∈ acc.all_issues ∨ Tagged c y)
    ∧ (∀ y ∈ (processOneCategory gen c ps m acc).all_optimizations,
        y ∈ acc.all_optimizations ∨ Tagged c y) := by
  unfold processOneCategory
  split
  · exact ⟨rfl, fun y hy => Or.inl hy, fun y hy => Or.inl hy⟩
  next response heq =>
    have s := collectCategory_spec c (extract_json_from_response response)
      { acc with callPrompts := acc.callPrompts
          ++ [create_category_prompt c (ps.take 15) ps.length m] }
    split
    next acc' heq2 =>
      rw [heq2] at s
      exact ⟨s.1, s.2.1, s.2.2⟩
    next acc' e2 heq2 =>
      rw [heq2] at s
      exact ⟨s.1, s.2.1, s.2.2⟩

theorem process_cats_aux (gen : String → Except PyErr String) (m : IPMetrics) :
    ∀ (l : List (String × List JVal)) (acc : CatAcc),
      (l.foldl (fun acc p =>
          if p.2.isEmpty then acc else processOneCategory gen p.1 p.2 m acc) acc).callPrompts
        = acc.callPrompts ++ (l.filter (fun p => !p.2.isEmpty)).map
            (fun p => create_category_prompt p.1 (p.2.take 15) p.2.length m)
      ∧ (∀ y ∈ (l.foldl (fun acc p =>
            if p.2.isEmpty then acc else processOneCategory gen p.1 p.2 m acc) acc).all_issues,
          y ∈ acc.all_issues
            ∨ ∃ c ∈ (l.filter (fun p => !p.2.isEmpty)).map Prod.fst, Tagged c y)
      ∧ (∀ y ∈ (l.foldl (fun acc p =>
            if p.2.isEmpty then acc
            else processOneCategory gen p.1 p.2 m acc) acc).all_optimizations,
          y ∈ acc.all_optimizations
            ∨ ∃ c ∈ (l.filter (fun p => !p.2.isEmpty)).map Prod.fst, Tagged c y) := by
  intro l
  induction l with
  | nil => exact fun acc => ⟨by simp, fun y hy => Or.inl hy, fun y hy => Or.inl hy⟩
  | cons p t ih =>
    intro acc
    by_cases hp : p.2.isEmpty
    · have heq : (p :: t).foldl (fun acc q =>
          if q.2.isEmpty then acc else processOneCategory gen q.1 q.2 m acc) acc
          = t.foldl (fun acc q =>
            if q.2.isEmpty then acc else processOneCategory gen q.1 q.2 m acc) acc := by
        rw [List.foldl_cons, if_pos hp]
      have hfil : (p :: t).filter (fun q => !q.2.isEmpty)
          = t.filter (fun q => !q.2.isEmpty) := by
        rw [List.filter_cons]
        simp [hp]
      rw [heq, hfil]
      exact ih acc
    · have heq : (p :: t).foldl (fun acc q =>
          if q.2.isEmpty then acc else processOneCategory gen q.1 q.2 m acc) acc
          = t.foldl (fun acc q =>
            if q.2.isEmpty then acc else processOneCategory gen q.1 q.2 m acc)
            (processOneCategory gen p.1 p.2 m acc) := by
        rw [List.foldl_cons, if_neg hp]
      have hfil : (p :: t).filter (fun q => !q.2.isEmpty)
          = p :: t.filter (fun q => !q.2.isEmpty) := by
        rw [List.filter_cons]
        simp [hp]
      rw [heq, hfil]
      have hone := processOne_spec gen p.1 p.2 m acc
      have hrest := ih (processOneCategory gen p.1 p.2 m acc)
      refine ⟨?_, ?_, ?_⟩
      · rw [hrest.1, hone.1]
        simp
      · intro y hy
        rcases hrest.2.1 y hy with h | ⟨c, hcmem, htag⟩
        · rcases hone.2.1 y h with h' | htag
          · exact Or.inl h'
          · exact Or.inr ⟨p.1, by rw [List.map_cons]; exact List.mem_cons_self _ _, htag⟩
        · exact Or.inr ⟨c, by rw [List.map_cons]; exact List.mem_cons_of_mem _ hcmem, htag⟩
      · intro y hy
        rcases hrest.2.2 y hy with h | ⟨c, hcmem, htag⟩
        · rcases hone.2.2 y h with h' | htag
          · exact Or.inl h'
          · exact Or.inr ⟨p.1, by rw [List.map_cons]; exact List.mem_cons_self _ _, htag⟩
        · exact Or.inr ⟨c, by rw [List.map_cons]; exact List.mem_cons_of_mem _ hcmem, htag⟩

/-- C4: the per-category loop of chunked InstalledPrograms analysis issues
exactly one category-level LLM call for each non-empty bucket — the call
prompts are, in bucket order, exactly the prompts of the non-empty buckets
(built over the first-15 sample) — and no call for an empty bucket; and
every issue and optimization it accumulates carries the `"category"` tag
of the originating non-empty bucket. -/
theorem chunking_one_call_per_nonempty_bucket (gen : String → Except PyErr String)
    (b : Buckets) (m : IPMetrics) :
    (process_categories gen b m).callPrompts
      = (b.toList.filter (fun p => !p.2.isEmpty)).map
          (fun p => create_category_prompt p.1 (p.2.take 15) p.2.length m)
    ∧ (process_categories gen b m).callPrompts.length
      = (b.toList.filter (fun p => !p.2.isEmpty)).length
    ∧ (∀ y ∈ (process_categories gen b m).all_issues,
        ∃ c ∈ (b.toList.filter (fun p => !p.2.isEmpty)).map Prod.fst, Tagged c y)
    ∧ (∀ y ∈ (process_categories gen b m).all_optimizations,
        ∃ c ∈ (b.toList.filter (fun p => !p.2.isEmpty)).map Prod.fst, Tagged c y) := by
  have haux := process_cats_aux gen m b.toList CatAcc.empty
  have h1 : (process_categories gen b m).callPrompts
      = (b.toList.filter (fun p => !p.2.isEmpty)).map
          (fun p => create_category_prompt p.1 (p.2.take 15) p.2.length m) := by
    show (b.toList.foldl (fun acc p =>
        if p.2.isEmpty then acc else processOneCategory gen p.1 p.2 m acc)
        CatAcc.empty).callPrompts = _
    rw [haux.1]
    rfl
  refine ⟨h1, by rw [h1, List.length_map], ?_, ?_⟩
  · intro y hy
    rcases haux.2.1 y hy with h | h
    · simp [CatAcc.empty] at h
    · exact h
  · intro y hy
    rcases haux.2.2 y hy with h | h
    · simp [CatAcc.empty] at h
    · exact h

theorem chunking_one_call_per_nonempty_bucket_witness :
    (process_categories sampleGen sampleBuckets3 sampleMetrics3).callPrompts.length = 3
    ∧ (process_categories sampleGen sampleBuckets3 sampleMetrics3).callPrompts
      = (sampleBuckets3.toList.filter (fun p => !p.2.isEmpty)).map
          (fun p => create_category_prompt p.1 (p.2.take 15) p.2.length sampleMetrics3) := by
  have h := chunking_one_call_per_nonempty_bucket sampleGen sampleBuckets3 sampleMetrics3
  exact ⟨h.2.1.trans (by rfl), h.1⟩

/-- C5: when at least one per-category summary was collected, the chunked
InstalledPrograms analysis issues one consolidated-summary LLM call; if that
call fails, the section result is still returned (no exception escapes) and
its `summary` field is the literal newline concatenation — the source's
`"\n".join(category_summaries)` at lines 441-453 of
`installed_programs_analyzer.py` — of the per-category summaries in
processing order, alongside the untouched aggregated issues and
optimizations. -/
theorem chunking_summary_fallback (gen : String → Except PyErr String) (today : Int)
    (items : List JVal) (additional : Dict) (buckets : Buckets) (e : PyErr)
    (hb : categorize_all today items = .ok buckets)
    (hs : (process_categories gen buckets (ipMetricsOf today items)).category_summaries ≠ [])
    (hfail : gen (create_overall_summary_prompt
        (process_categories gen buckets (ipMetricsOf today items)).category_summaries
        (ipMetricsOf today items)) = .error e) :
    ip_analyze_with_chunking gen today (.jarr items) additional
      = .ok (.jobj
          [("issues",
             .jarr (process_categories gen buckets (ipMetricsOf today items)).all_issues),
           ("optimizations",
             .jarr (process_categories gen buckets (ipMetricsOf today items)).all_optimizations),
           ("summary",
             .jstr (String.intercalate "\n"
               (process_categories gen buckets (ipMetricsOf today items)).category_summaries))],
          (process_categories gen buckets (ipMetricsOf today items)).callPrompts
            ++ [create_overall_summary_prompt
                  (process_categories gen buckets (ipMetricsOf today items)).category_summaries
                  (ipMetricsOf today items)]) := by
  have hcond : ¬ ((process_categories gen buckets
      (ipMetricsOf today items)).category_summaries.isEmpty = true) := by
    simp [List.isEmpty_iff, hs]
  have hsum : ip_summary_phase gen (process_categories gen buckets (ipMetricsOf today items))
      (ipMetricsOf today items)
      = ([("issues",
            .jarr (process_categories gen buckets (ipMetricsOf today items)).all_issues),
          ("optimizations",
            .jarr (process_categories gen buckets (ipMetricsOf today items)).all_optimizations),
          ("summary",
            .jstr (String.intercalate "\n"
              (process_categories gen buckets (ipMetricsOf today items)).category_summaries))],
         [create_overall_summary_prompt
            (process_categories gen buckets (ipMetricsOf today items)).category_summaries
            (ipMetricsOf today items)]) := by
    simp only [ip_summary_phase]
    rw [if_neg hcond, hfail]
    rfl
  simp only [ip_analyze_with_chunking, hb, hsum]

set_option maxRecDepth 8000 in
theorem chunking_summary_fallback_witness :
    ip_analyze_with_chunking sampleGenSummaryFail sampleToday (.jarr [sampleSecProg]) []
      = .ok (.jobj [("issues", .jarr []), ("optimizations", .jarr []),
                    ("summary", .jstr "SECURITY: security ok")],
             [create_category_prompt "security" [sampleSecProg] 1
                (ipMetricsOf sampleToday [sampleSecProg]),
              create_overall_summary_prompt ["SECURITY: security ok"]
                (ipMetricsOf sampleToday [sampleSecProg])]) := by
  have h := chunking_summary_fallback sampleGenSummaryFail sampleToday [sampleSecProg] []
      sampleSecBuckets ⟨"ConnectionError", "server down"⟩ rfl (by decide) rfl
  exact h.trans (by rfl)

theorem assocSet_append_of_not_mem {α : Type} (d : List (String × α)) (k : String) (v : α)
    (h : k ∉ d.map Prod.fst) : assocSet d k v = d ++ [(k, v)] := by
  induction d with
  | nil => rfl
  | cons p t ih =>
    simp only [List.map_cons, List.mem_cons] at h
    push_neg at h
    have hp : ¬ p.1 = k := fun hc => h.1 hc.symm
    simp [assocSet, hp, ih h.2]

theorem assocFind_assocSet_ne {α : Type} (d : List (String × α)) (k k' : String) (v : α)
    (h : k ≠ k') : assocFind? (assocSet d k' v) k = assocFind? d k := by
  induction d with
  | nil => simp [assocSet, assocFind?, h.symm]
  | cons p t ih =>
    by_cases hp : p.1 = k'
    · simp [assocSet, assocFind?, hp, h.symm]
    · simp [assocSet, assocFind?, hp, ih]

theorem foldl_dictSet_keys (f : String × JVal → JVal) :
    ∀ (sections : List (String × JVal)) (acc : Dict),
      (sections.map Prod.fst).Nodup →
      (∀ k ∈ sections.map Prod.fst, k ∉ acc.map Prod.fst) →
      ((sections.foldl (fun a q => dictSet a q.1 (f q)) acc).map Prod.fst
        = acc.map Prod.fst ++ sections.map Prod.fst) := by
  intro sections
  induction sections with
  | nil => intro acc _ _; simp
  | cons q t ih =>
    intro acc hnd hdisj
    rw [List.map_cons, List.nodup_cons] at hnd
    have hq : q.1 ∉ acc.map Prod.fst := hdisj q.1 (by simp)
    have hset : dictSet acc q.1 (f q) = acc ++ [(q.1, f q)] :=
      assocSet_append_of_not_mem acc q.1 (f q) hq
    have hdisj' : ∀ k ∈ t.map Prod.fst, k ∉ (dictSet acc q.1 (f q)).map Prod.fst := by
      intro k hk
      rw [hset, List.map_append, List.mem_append]
      push_neg
      refine ⟨hdisj k (by simp [hk]), ?_⟩
      simp only [List.map_cons, List.map_nil, List.mem_singleton]
      intro hc
      exact hnd.1 (hc ▸ hk)
    have hrec := ih (dictSet acc q.1 (f q)) hnd.2 hdisj'
    simp only [List.foldl_cons] at *
    rw [hrec, hset, List.map_append, List.map_cons]
    simp

theorem foldl_dictSet_find_preserve (f : String × JVal → JVal) :
    ∀ (sections : List (String × JVal)) (acc : Dict) (k : String),
      k ∉ sections.map Prod.fst →
      assocFind? (sections.foldl (fun a q => dictSet a q.1 (f q)) acc) k
        = assocFind? acc k := by
  intro sections
  induction sections with
  | nil => intro acc k _; rfl
  | cons q t ih =>
    intro acc k hk
    simp only [List.map_cons, List.mem_cons] at hk
    push_neg at hk
    simp only [List.foldl_cons]
    rw [ih _ _ hk.2]
    exact assocFind_assocSet_ne acc k q.1 (f q) hk.1

theorem foldl_dictSet_find (f : String × JVal → JVal) :
    ∀ (sections : List (String × JVal)) (acc : Dict),
      (sections.map Prod.fst).Nodup →
      ∀ p ∈ sections,
        assocFind? (sections.foldl (fun a q => dictSet a q.1 (f q)) acc) p.1 = some (f p) := by
  intro sections
  induction sections with
  | nil => intro acc _ p hp; cases hp
  | cons q t ih =>
    intro acc hnd p hp
    rw [List.map_cons, List.nodup_cons] at hnd
    cases hp with
    | head =>
      simp only [List.foldl_cons]
      rw [foldl_dictSet_find_preserve f t _ q.1 hnd.1]
      exact assocFind_assocSet_self acc q.1 (f q)
    | tail _ hmem =>
      simp only [List.foldl_cons]
      exact ih _ hnd.2 p hmem

theorem console_check_summaryErr (e : PyErr) :
    console_summary_check (summaryErrObj e) = .ok () := rfl

theorem analyze_snapshot_ok_of_console (reg : List (String × AnalyzerEntry))
    (gen : String → Except PyErr String) (cfg : RunCfg) (snap : Snapshot)
    (hcc : console_summary_check (summary_result gen snap.metadata
        (analyze_sections_loop reg gen snap.sections)) = .ok ()) :
    analyze_snapshot reg gen cfg (.ok snap)
      = .ok ⟨report_metadata cfg snap.metadata,
             analyze_sections_loop reg gen snap.sections,
             summary_result gen snap.metadata (analyze_sections_loop reg gen snap.sections)⟩ := by
  simp [analyze_snapshot, hcc]

theorem analyze_snapshot_ok_inv (reg : List (String × AnalyzerEntry))
    (gen : String → Except PyErr String) (cfg : RunCfg) (snap : Snapshot) (r : Report)
    (hr : analyze_snapshot reg gen cfg (.ok snap) = .ok r) :
    r = ⟨report_metadata cfg snap.metadata,
         analyze_sections_loop reg gen snap.sections,
         summary_result gen snap.metadata (analyze_sections_loop reg gen snap.sections)⟩ := by
  cases hcc : console_summary_check (summary_result gen snap.metadata
      (analyze_sections_loop reg gen snap.sections)) with
  | error e =>
    have hred : analyze_snapshot reg gen cfg (.ok snap) = .error e := by
      simp [analyze_snapshot, hcc]
    rw [hred] at hr
    simp at hr
  | ok u =>
    cases u
    have hred : analyze_snapshot reg gen cfg (.ok snap)
        = .ok ⟨report_metadata cfg snap.metadata,
               analyze_sections_loop reg gen snap.sections,
               summary_result gen snap.metadata
                 (analyze_sections_loop reg gen snap.sections)⟩ := by
      simp [analyze_snapshot, hcc]
    rw [hred] at hr
    exact (Except.ok.inj hr).symm

/-- C1 counterexample: a snapshot that loads successfully (one section,
carried through as a loader-error entry without any LLM call) for which
`analyze_snapshot` produces no report at all — the summary call succeeds
and parses to the scalar `42`, and the unguarded membership probe of
analyzer.py line 266 raises `TypeError` out of the function. -/
theorem no_report_on_scalar_summary :
    analyze_snapshot [] scalarGen sampleCfg (.ok tinySnap)
      = .error (typeErr "argument of type \x27int\x27 is not iterable") := rfl

/-- C1 (amended): any report `analyze_snapshot` returns for a loaded
snapshot covers every loaded section exactly once — its `sections` keys
are the snapshot section names in order, N keys for N sections.  LLM call
failures never prevent the report: a failed (or failing-to-build) summary
is caught into the dict-shaped error summary, which always passes the
console probe, and whenever the console probe of the computed summary
passes, the report is returned with full coverage.  (The unamended
unconditional form is false: see the scalar-summary counterexample.) -/
theorem snapshot_total_section_coverage (reg : List (String × AnalyzerEntry))
    (gen : String → Except PyErr String) (cfg : RunCfg) (snap : Snapshot)
    (hnd : (snap.sections.map Prod.fst).Nodup) :
    (∀ r, analyze_snapshot reg gen cfg (.ok snap) = .ok r →
        r.sections.map Prod.fst = snap.sections.map Prod.fst
        ∧ r.sections.length = snap.sections.length)
    ∧ (∀ e : PyErr, console_summary_check (summaryErrObj e) = .ok ())
    ∧ (console_summary_check (summary_result gen snap.metadata
          (analyze_sections_loop reg gen snap.sections)) = .ok () →
        ∃ r, analyze_snapshot reg gen cfg (.ok snap) = .ok r
          ∧ r.sections.map Prod.fst = snap.sections.map Prod.fst
          ∧ r.sections.length = snap.sections.length) := by
  have hkeys : (analyze_sections_loop reg gen snap.sections).map Prod.fst
      = snap.sections.map Prod.fst := by
    have h := foldl_dictSet_keys (section_entry_result reg gen snap.sections)
        snap.sections [] hnd (by simp)
    simpa [analyze_sections_loop] using h
  have hlen : (analyze_sections_loop reg gen snap.sections).length
      = snap.sections.length := by
    have h := congrArg List.length hkeys
    simpa using h
  refine ⟨?_, console_check_summaryErr, ?_⟩
  · intro r hr
    rw [analyze_snapshot_ok_inv reg gen cfg snap r hr]
    exact ⟨hkeys, hlen⟩
  · intro hcc
    exact ⟨_, analyze_snapshot_ok_of_console reg gen cfg snap hcc, hkeys, hlen⟩

theorem snapshot_total_section_coverage_witness :
    ∃ r, analyze_snapshot [] failGen sampleCfg (.ok sampleSnap) = .ok r
      ∧ r.sections.map Prod.fst = sampleSnap.sections.map Prod.fst
      ∧ r.sections.length = sampleSnap.sections.length :=
  (snapshot_total_section_coverage [] failGen sampleCfg sampleSnap (by decide)).2.2 (by rfl)

/-- C2 counterexample: a raise that is neither a per-section nor a summary
failure handler outcome nor a setup failure escapes `analyze_snapshot` —
the summary call succeeds and parses to a string containing `error`, the
line 266 probe answers true, and the unguarded
`analysis_result[\x27summary\x27][\x27error\x27]` subscript of line 268
raises `TypeError` out of the function. -/
theorem raise_escapes_for_nonsetup_failure :
    analyze_snapshot [] strErrGen sampleCfg (.ok tinySnap)
      = .error (typeErr "string indices must be integers") := rfl

/-- C2 (amended): load failures are re-raised as
`RuntimeError("Failed to load snapshot data: ...")`; in any report
`analyze_snapshot` returns, every loaded section holds the result of its
own isolated analysis, and a section whose analysis step raises — LLM
transport, parse, or analyzer failure — holds exactly the
`\x7b"error": "Analysis failed: ...", "traceback": ...\x7d` entry while
every other section still holds its own result; and a summary failure
(prompt building or LLM call) is caught into the error summary, with
which the report is still returned.  The terminal never-raises contract
of the unamended claim is false: the unguarded console probe of
analyzer.py lines 266-268 can raise `TypeError` on an exotic successfully
parsed summary (see the counterexample). -/
theorem section_exception_isolation (reg : List (String × AnalyzerEntry))
    (gen : String → Except PyErr String) (cfg : RunCfg) (snap : Snapshot)
    (hnd : (snap.sections.map Prod.fst).Nodup) :
    (∀ e, analyze_snapshot reg gen cfg (.error e)
        = .error ⟨"RuntimeError", "Failed to load snapshot data: " ++ e⟩)
    ∧ (∀ r, analyze_snapshot reg gen cfg (.ok snap) = .ok r →
        (∀ p ∈ snap.sections,
            dictFind? r.sections p.1 = some (section_entry_result reg gen snap.sections p))
        ∧ (∀ p ∈ snap.sections, ∀ err : PyErr, isLoadError p.2 = false →
            analyze_section_step reg gen snap.sections p.1 p.2 = .error err →
            dictFind? r.sections p.1
              = some (.jobj [("error", .jstr ("Analysis failed: " ++ err.msg)),
                             ("traceback", .jstr (pyTraceback err))])))
    ∧ (∀ e : PyErr, summary_result gen snap.metadata
          (analyze_sections_loop reg gen snap.sections) = summaryErrObj e →
        ∃ r, analyze_snapshot reg gen cfg (.ok snap) = .ok r
          ∧ r.summary = summaryErrObj e) := by
  refine ⟨fun e => rfl, ?_, ?_⟩
  · intro r hr
    rw [analyze_snapshot_ok_inv reg gen cfg snap r hr]
    constructor
    · intro p hp
      exact foldl_dictSet_find (section_entry_result reg gen snap.sections)
        snap.sections [] hnd p hp
    · intro p hp err hLoad hstep
      have h1 := foldl_dictSet_find (section_entry_result reg gen snap.sections)
        snap.sections [] hnd p hp
      have h2 : section_entry_result reg gen snap.sections p
          = .jobj [("error", .jstr ("Analysis failed: " ++ err.msg)),
                   ("traceback", .jstr (pyTraceback err))] := by
        obtain ⟨k, v⟩ := p
        cases v with
        | jobj kvs =>
          simp only [isLoadError] at hLoad
          simp [section_entry_result, section_result, hLoad, hstep]
        | null => simp [section_entry_result, section_result, hstep]
        | jbool b => simp [section_entry_result, section_result, hstep]
        | jint n => simp [section_entry_result, section_result, hstep]
        | jfloat m s => simp [section_entry_result, section_result, hstep]
        | jstr s => simp [section_entry_result, section_result, hstep]
        | jarr xs => simp [section_entry_result, section_result, hstep]
      exact h1.trans (congrArg some h2)
  · intro e hse
    have hcc : console_summary_check (summary_result gen snap.metadata
        (analyze_sections_loop reg gen snap.sections)) = .ok () := by
      rw [hse]
      exact console_check_summaryErr e
    exact ⟨_, analyze_snapshot_ok_of_console reg gen cfg snap hcc, hse⟩

theorem section_exception_isolation_witness :
    (analyze_snapshot [] failGen sampleCfg (.error "boom")
        = .error ⟨"RuntimeError", "Failed to load snapshot data: boom"⟩)
    ∧ ∃ r, analyze_snapshot [] failGen sampleCfg (.ok sampleSnap) = .ok r
        ∧ dictFind? r.sections "Alpha"
            = some (.jobj [("error", .jstr "Analysis failed: connection refused"),
                           ("traceback",
                            .jstr (pyTraceback ⟨"ConnectionError", "connection refused"⟩))]) := by
  obtain ⟨h1, h2, h3⟩ :=
    section_exception_isolation [] failGen sampleCfg sampleSnap (by decide)
  obtain ⟨r, hr, hsum⟩ := h3 ⟨"ConnectionError", "connection refused"⟩ (by rfl)
  obtain ⟨hall, hfail⟩ := h2 r hr
  exact ⟨h1 "boom", r, hr, hfail ("Alpha", .jstr "a") (by simp [sampleSnap])
      ⟨"ConnectionError", "connection refused"⟩ rfl rfl⟩

end SysMon
